import Mathlib

/-!
Shallow embedding of the face-tracking core of the photo-booth application:
the `FaceRegistry` class (identity registry), its geometric feature
extractors, and the smoothing / projection engine
(`applySmoothInterpolation`).

Modelling conventions:
* JavaScript numbers are modelled as exact real numbers.
* A MediaPipe landmark array is a `List (Option Point)`; `none` models an
  `undefined` entry (out-of-range index or hole), and `landmarks[i]` is
  `lmGet`.
* The JS `Map` of tracked faces, keyed by the face id, is modelled as an
  insertion-ordered list of `TrackedFace` records; in the source the map
  key is always equal to the `faceId` field stored in the value, so the
  key is kept only inside the record.
* The JS face-id string `face_${n}` is modelled by the counter value `n`
  itself (the prefix is a constant, injective decoration).
* `Date.now()` is passed to `processDetections` explicitly as `now`
  (milliseconds).
-/

namespace FaceTracker

noncomputable section

/-- A 2-D landmark / centre point in normalized coordinates. -/
@[ext]
structure Point where
  x : ℝ
  y : ℝ

/-- A MediaPipe landmark array; `none` entries model `undefined`. -/
abbrev Landmarks := List (Option Point)

/-- JS array access `landmarks[i]` (`undefined` past the end). -/
def lmGet (lm : Landmarks) (i : ℕ) : Option Point := lm.getD i none

/-- `this.maxFaces = 5`. -/
def maxFaces : ℕ := 5

/-- `this.matchThreshold = 0.15`. -/
def matchThreshold : ℝ := 0.15

/-- `this.maxFramesMissing = 1`. -/
def maxFramesMissing : ℕ := 1

/-- `this.maxFaceAge = 2000` (milliseconds). -/
def maxFaceAge : ℤ := 2000

/-- A persistent tracked face (one entry of `this.trackedFaces`). -/
structure TrackedFace where
  faceId : ℕ
  maskNumber : ℕ
  center : Point
  size : ℝ
  rotation : ℝ
  landmarks : Landmarks
  framesMissing : ℕ
  firstSeen : ℤ
  lastSeen : ℤ

/-- The registry state: the map of tracked faces plus the id counter. -/
structure Registry where
  trackedFaces : List TrackedFace
  nextFaceId : ℕ

/-- A freshly constructed `FaceRegistry`. -/
def freshRegistry : Registry := { trackedFaces := [], nextFaceId := 1 }

/-- `FaceRegistry.reset` (of the two same-named methods in the class the
later one wins in JS): clear all tracked faces and reset the counter. -/
def reset (_st : Registry) : Registry := { trackedFaces := [], nextFaceId := 1 }

/-- JavaScript `Math.atan2` on exact reals (`atan2 0 0 = 0`). -/
def atan2 (y x : ℝ) : ℝ :=
  if 0 < x then Real.arctan (y / x)
  else if x < 0 then
    (if 0 ≤ y then Real.arctan (y / x) + Real.pi else Real.arctan (y / x) - Real.pi)
  else
    (if 0 < y then Real.pi / 2 else if y < 0 then -(Real.pi / 2) else 0)

/-- `FaceRegistry.calculateFaceCenter`: average of the two eye centres,
shifted towards the nose tip by 60% of the vertical eye-to-nose distance
(fallback distance `0.03` when the nose-tip landmark is missing); `none`
when the array is empty or an eye-corner landmark is missing. -/
def calculateFaceCenter (landmarks : Landmarks) : Option Point :=
  if landmarks.isEmpty then none else
  match lmGet landmarks 33, lmGet landmarks 133, lmGet landmarks 362, lmGet landmarks 263 with
  | some leftEyeLeft, some leftEyeRight, some rightEyeLeft, some rightEyeRight =>
      let leftEyeCenter : Point :=
        ⟨(leftEyeLeft.x + leftEyeRight.x) / 2, (leftEyeLeft.y + leftEyeRight.y) / 2⟩
      let rightEyeCenter : Point :=
        ⟨(rightEyeLeft.x + rightEyeRight.x) / 2, (rightEyeLeft.y + rightEyeRight.y) / 2⟩
      let eyeCenter : Point :=
        ⟨(leftEyeCenter.x + rightEyeCenter.x) / 2, (leftEyeCenter.y + rightEyeCenter.y) / 2⟩
      let eyeToNoseDistance : ℝ :=
        match lmGet landmarks 1 with
        | some noseTip => noseTip.y - eyeCenter.y
        | none => 0.03
      some ⟨eyeCenter.x, eyeCenter.y + eyeToNoseDistance * 0.6⟩
  | _, _, _, _ => none

/-- `FaceRegistry.calculateFaceSize`: the larger of the face-oval height
and width, with fallback `0.2` when a required landmark is missing. -/
def calculateFaceSize (landmarks : Landmarks) : ℝ :=
  if landmarks.isEmpty then 0.2 else
  match lmGet landmarks 10, lmGet landmarks 152, lmGet landmarks 234, lmGet landmarks 454 with
  | some topPoint, some bottomPoint, some leftPoint, some rightPoint =>
      let height := |bottomPoint.y - topPoint.y|
      let width := |rightPoint.x - leftPoint.x|
      max height width
  | _, _, _, _ => 0.2

/-- `FaceRegistry.calculateHeadRotation`: angle of the eye line in degrees;
`0` for an empty array, and `0` when an eye landmark is missing (the
property access on `undefined` throws and the `catch` handler returns 0). -/
def calculateHeadRotation (landmarks : Landmarks) : ℝ :=
  if landmarks.isEmpty then 0 else
  match lmGet landmarks 33, lmGet landmarks 133, lmGet landmarks 362, lmGet landmarks 263 with
  | some leftEyeLeft, some leftEyeRight, some rightEyeLeft, some rightEyeRight =>
      let leftEyeCenter : Point :=
        ⟨(leftEyeLeft.x + leftEyeRight.x) / 2, (leftEyeLeft.y + leftEyeRight.y) / 2⟩
      let rightEyeCenter : Point :=
        ⟨(rightEyeLeft.x + rightEyeRight.x) / 2, (rightEyeLeft.y + rightEyeRight.y) / 2⟩
      let deltaX := rightEyeCenter.x - leftEyeCenter.x
      let deltaY := rightEyeCenter.y - leftEyeCenter.y
      atan2 deltaY deltaX * (180 / Real.pi)
  | _, _, _, _ => 0

/-- `FaceRegistry.calculateDistance` between two face centres. -/
def calculateDistance (center1 center2 : Point) : ℝ :=
  Real.sqrt ((center1.x - center2.x) ^ 2 + (center1.y - center2.y) ^ 2)

/-- `FaceRegistry.calculateSimilarity` of two faces given by centre and
size. -/
def calculateSimilarity (center1 : Point) (size1 : ℝ) (center2 : Point) (size2 : ℝ) : ℝ :=
  let distance := calculateDistance center1 center2
  let distanceScore := max 0 (1 - distance / matchThreshold)
  let sizeDiff := |size1 - size2| / max size1 size2
  let sizeScore := max 0 (1 - sizeDiff)
  distanceScore * 0.7 + sizeScore * 0.3

/-- The value captured by `findBestMatch`: `{ faceId, trackedFace, score }`. -/
structure MatchResult where
  faceId : ℕ
  trackedFace : TrackedFace
  score : ℝ

/-- Body of the `findBestMatch` loop; the accumulator is
`(bestMatch, bestScore)`. -/
def findBestMatchStep (center : Point) (size : ℝ) (acc : Option MatchResult × ℝ)
    (tf : TrackedFace) : Option MatchResult × ℝ :=
  let similarity := calculateSimilarity center size tf.center tf.size
  if similarity > acc.2 ∧ similarity > 0.6 then (some ⟨tf.faceId, tf, similarity⟩, similarity)
  else acc

/-- `FaceRegistry.findBestMatch`. -/
def findBestMatch (center : Point) (size : ℝ) (tracked : List TrackedFace) :
    Option MatchResult :=
  (tracked.foldl (findBestMatchStep center size) (none, 0)).1

/-- `FaceRegistry.getNextMaskNumber`: the lowest mask number in
`[1, maxFaces]` not currently in use, with fallback `1`. -/
def getNextMaskNumber (tracked : List TrackedFace) : ℕ :=
  let usedMasks := tracked.map (fun face => face.maskNumber)
  (((List.range' 1 maxFaces).find? (fun i => !(usedMasks.contains i))).getD 1)

/-- One per-frame detection after conversion from MediaPipe format. -/
structure Detection where
  landmarks : Landmarks
  center : Option Point
  size : ℝ
  rotation : ℝ
  originalIndex : ℕ

/-- A result entry of `processDetections`:
`{ ...newFace, faceId, maskNumber }`. -/
structure TaggedFace where
  landmarks : Landmarks
  center : Option Point
  size : ℝ
  rotation : ℝ
  originalIndex : ℕ
  faceId : ℕ
  maskNumber : ℕ

/-- Conversion of one raw landmark array into a `Detection`. -/
def mkDetection (index : ℕ) (landmarks : Landmarks) : Detection :=
  { landmarks := landmarks
    center := calculateFaceCenter landmarks
    size := calculateFaceSize landmarks
    rotation := calculateHeadRotation landmarks
    originalIndex := index }

/-- The conversion-and-filter prologue of `processDetections`: detections
whose extracted centre is `null` are discarded. -/
def convertDetections (currentFaces : List Landmarks) : List Detection :=
  (currentFaces.enum.map (fun p => mkDetection p.1 p.2)).filter
    (fun face => face.center.isSome)

/-- The mutable state of the matching loop inside `processDetections`. -/
structure MatchLoopState where
  trackedFaces : List TrackedFace
  nextFaceId : ℕ
  matchedFaceIds : List ℕ
  results : List TaggedFace

/-- The field updates applied to a matched tracked face. -/
def updateTrackedFace (newFace : Detection) (c : Point) (now : ℤ) (tf : TrackedFace) :
    TrackedFace :=
  { tf with center := c, size := newFace.size, rotation := newFace.rotation,
            landmarks := newFace.landmarks, framesMissing := 0, lastSeen := now }

/-- The tracked face created for an unmatched detection. -/
def newTrackedFace (faceId maskNumber : ℕ) (newFace : Detection) (c : Point) (now : ℤ) :
    TrackedFace :=
  { faceId := faceId, maskNumber := maskNumber, center := c, size := newFace.size,
    rotation := newFace.rotation, landmarks := newFace.landmarks, framesMissing := 0,
    firstSeen := now, lastSeen := now }

/-- The result entry `{ ...newFace, faceId, maskNumber }`. -/
def tagFace (newFace : Detection) (faceId maskNumber : ℕ) : TaggedFace :=
  { landmarks := newFace.landmarks, center := newFace.center, size := newFace.size,
    rotation := newFace.rotation, originalIndex := newFace.originalIndex,
    faceId := faceId, maskNumber := maskNumber }

/-- Body of the matching loop of `processDetections` for one detection.
The `none` centre branch cannot be reached from `processDetections`
because of the `convertDetections` filter; it leaves the state unchanged. -/
def matchStep (now : ℤ) (s : MatchLoopState) (newFace : Detection) : MatchLoopState :=
  match newFace.center with
  | none => s
  | some c =>
    match findBestMatch c newFace.size s.trackedFaces with
    | some m =>
        { trackedFaces := s.trackedFaces.map
            (fun tf => if tf.faceId = m.faceId then updateTrackedFace newFace c now tf else tf)
          nextFaceId := s.nextFaceId
          matchedFaceIds := s.matchedFaceIds ++ [m.faceId]
          results := s.results ++ [tagFace newFace m.faceId m.trackedFace.maskNumber] }
    | none =>
        let maskNumber := getNextMaskNumber s.trackedFaces
        let faceId := s.nextFaceId
        { trackedFaces := s.trackedFaces ++ [newTrackedFace faceId maskNumber newFace c now]
          nextFaceId := s.nextFaceId + 1
          matchedFaceIds := s.matchedFaceIds
          results := s.results ++ [tagFace newFace faceId maskNumber] }

/-- The whole matching loop of `processDetections`. -/
def runMatching (st : Registry) (dets : List Detection) (now : ℤ) : MatchLoopState :=
  dets.foldl (matchStep now)
    { trackedFaces := st.trackedFaces, nextFaceId := st.nextFaceId,
      matchedFaceIds := [], results := [] }

/-- `trackedFace.framesMissing++` for faces not matched this frame. -/
def markMissing (matchedFaceIds : List ℕ) (tf : TrackedFace) : TrackedFace :=
  if matchedFaceIds.contains tf.faceId then tf
  else { tf with framesMissing := tf.framesMissing + 1 }

/-- Membership in `facesToRemove` (evaluated after the `framesMissing`
increment, which in the source happens before the checks). -/
def shouldRemove (matchedFaceIds : List ℕ) (now : ℤ) (tf : TrackedFace) : Bool :=
  (!(matchedFaceIds.contains tf.faceId) && decide (tf.framesMissing > maxFramesMissing))
    || decide (now - tf.lastSeen > maxFaceAge)

/-- `FaceRegistry.processDetections`, one frame: convert and filter the
detections, run the greedy matching loop, age and expire unmatched faces,
and clear everything when the raw input list is empty. -/
def processDetections (st : Registry) (currentFaces : List Landmarks) (now : ℤ) :
    Registry × List TaggedFace :=
  let newDetections := convertDetections currentFaces
  let afterMatch := runMatching st newDetections now
  let updated := afterMatch.trackedFaces.map (markMissing afterMatch.matchedFaceIds)
  let kept := updated.filter (fun tf => !(shouldRemove afterMatch.matchedFaceIds now tf))
  if currentFaces.isEmpty then ({ st with trackedFaces := [] }, [])
  else ({ trackedFaces := kept, nextFaceId := afterMatch.nextFaceId }, afterMatch.results)

/-- Registry states reachable from a fresh `FaceRegistry` by frames and
resets. -/
inductive Reachable : Registry → Prop
  | fresh : Reachable freshRegistry
  | step (st : Registry) (currentFaces : List Landmarks) (now : ℤ) :
      Reachable st → Reachable (processDetections st currentFaces now).1
  | reset (st st₀ : Registry) : Reachable st₀ → Reachable (reset st)

/-- `lerp` from the smoothing engine. -/
def lerp (a b t : ℝ) : ℝ := a + (b - a) * t

/-- `smoothingFactor = 0.2` inside `applySmoothInterpolation`. -/
def smoothingFactor : ℝ := 0.2

/-- The display-surface geometry read each frame: the canvas rectangle and
the intrinsic video dimensions. -/
structure DisplayGeom where
  canvasWidth : ℝ
  canvasHeight : ℝ
  videoWidth : ℝ
  videoHeight : ℝ

/-- A smoothed screen-space pose. -/
structure SmoothFace where
  x : ℝ
  y : ℝ
  rotation : ℝ
  size : ℝ
  maskNumber : ℕ
  faceId : ℕ

/-- One cached entry of `prevFaceData`. -/
structure PrevFaceData where
  faceId : ℕ
  x : ℝ
  y : ℝ
  rotation : ℝ
  size : ℝ

/-- The `object-fit: cover` geometry computed per face. -/
structure FitGeom where
  displayedVideoWidth : ℝ
  displayedVideoHeight : ℝ
  offsetX : ℝ
  offsetY : ℝ

/-- The cover-fit computation of `applySmoothInterpolation`. -/
def coverFit (g : DisplayGeom) : FitGeom :=
  let videoAspect := g.videoWidth / g.videoHeight
  let displayAspect := g.canvasWidth / g.canvasHeight
  if videoAspect > displayAspect then
    { displayedVideoWidth := g.canvasHeight * videoAspect
      displayedVideoHeight := g.canvasHeight
      offsetX := (g.canvasHeight * videoAspect - g.canvasWidth) / 2
      offsetY := 0 }
  else
    { displayedVideoWidth := g.canvasWidth
      displayedVideoHeight := g.canvasWidth / videoAspect
      offsetX := 0
      offsetY := (g.canvasWidth / videoAspect - g.canvasHeight) / 2 }

/-- The raw (pre-smoothing) projected pose of one face. -/
structure RawPose where
  pixelX : ℝ
  pixelY : ℝ
  mirroredRotation : ℝ
  scaledMaskSize : ℝ

/-- Mirroring, pixel mapping and size mapping of one face, as computed in
the body of `applySmoothInterpolation`. -/
def projectFace (g : DisplayGeom) (faceCenter : Point) (faceSize rotation : ℝ) : RawPose :=
  let fit := coverFit g
  let mirroredX := 1 - faceCenter.x
  let pixelX := mirroredX * fit.displayedVideoWidth - fit.offsetX
  let pixelY := faceCenter.y * fit.displayedVideoHeight - fit.offsetY
  let mirroredRotation := -rotation
  let baseMaskSize := faceSize * fit.displayedVideoHeight * 2.5
  let maskSize := max 100 (min 800 baseMaskSize)
  { pixelX := pixelX, pixelY := pixelY, mirroredRotation := mirroredRotation,
    scaledMaskSize := maskSize }

/-- The per-face body of `applySmoothInterpolation`: project, then blend
with the pose of the previous frame for the same `faceId` when one is cached. -/
def smoothOne (prev : List PrevFaceData) (g : DisplayGeom) (faceData : TaggedFace) :
    Option SmoothFace :=
  match faceData.center with
  | none => none
  | some faceCenter =>
    let raw := projectFace g faceCenter faceData.size faceData.rotation
    match prev.find? (fun d => d.faceId == faceData.faceId) with
    | some prevData =>
        some { x := lerp prevData.x raw.pixelX smoothingFactor
               y := lerp prevData.y raw.pixelY smoothingFactor
               rotation := lerp prevData.rotation raw.mirroredRotation smoothingFactor
               size := lerp prevData.size raw.scaledMaskSize smoothingFactor
               maskNumber := faceData.maskNumber
               faceId := faceData.faceId }
    | none =>
        some { x := raw.pixelX, y := raw.pixelY, rotation := raw.mirroredRotation,
               size := raw.scaledMaskSize, maskNumber := faceData.maskNumber,
               faceId := faceData.faceId }

/-- `applySmoothInterpolation`: one frame of the smoothing engine.  Returns
the new registry state, the smoothed poses, and the new `prevFaceData`
cache (cleared when no faces are tracked). -/
def applySmoothInterpolation (reg : Registry) (prev : List PrevFaceData) (g : DisplayGeom)
    (currentFaces : List Landmarks) (now : ℤ) :
    Registry × List SmoothFace × List PrevFaceData :=
  let p := processDetections reg currentFaces now
  let trackedFaces := p.2
  let newSmoothFaces := trackedFaces.filterMap (smoothOne prev g)
  let newPrev := newSmoothFaces.map (fun f =>
    { faceId := f.faceId, x := f.x, y := f.y, rotation := f.rotation, size := f.size :
      PrevFaceData })
  (p.1, newSmoothFaces, if trackedFaces.isEmpty then [] else newPrev)

/-- A landmark array whose eye-corner landmarks (33, 133, 362, 263) and
nose tip (1) all sit at the one point `c`: its extracted centre is exactly
`c`, its extracted size is the fallback `0.2`, and its rotation is `0`. -/
def mkLandmarks (c : Point) : Landmarks :=
  (List.range 478).map (fun i =>
    if i = 1 ∨ i = 33 ∨ i = 133 ∨ i = 263 ∨ i = 362 then some c else none)

/-- Like `mkLandmarks` but with the nose-tip landmark (index 1) absent. -/
def mkLandmarksNoNose (c : Point) : Landmarks :=
  (List.range 478).map (fun i =>
    if i = 33 ∨ i = 133 ∨ i = 263 ∨ i = 362 then some c else none)

/-- A face at the centre of the frame. -/
def faceA : Landmarks := mkLandmarks ⟨0.5, 0.5⟩

/-- A face far (0.4 in normalized x) from `faceA`. -/
def faceF : Landmarks := mkLandmarks ⟨0.9, 0.5⟩

/-- The detection extracted from `faceA` at input position `i`. -/
def detA (i : ℕ) : Detection :=
  { landmarks := faceA, center := some ⟨0.5, 0.5⟩, size := 0.2, rotation := 0,
    originalIndex := i }

/-- The track created for `faceA` on a fresh registry, as it stands at the
end of that first call (`framesMissing` was already incremented once,
because newly created tracks are not recorded as matched). -/
def trackA : TrackedFace :=
  { faceId := 1, maskNumber := 1, center := ⟨0.5, 0.5⟩, size := 0.2, rotation := 0,
    landmarks := faceA, framesMissing := 1, firstSeen := 0, lastSeen := 0 }

/-- `trackA` right after being matched again (frame 2). -/
def trackA0 : TrackedFace := { trackA with framesMissing := 0 }

/-- The registry after `faceA` was seen in two consecutive frames. -/
def regC3 : Registry := { trackedFaces := [trackA0], nextFaceId := 2 }

/-- The detection extracted from `faceF` at input position 1. -/
def detF : Detection :=
  { landmarks := faceF, center := some ⟨0.9, 0.5⟩, size := 0.2, rotation := 0,
    originalIndex := 1 }

/-- The second track of the two-face first frame (`faceA`, `faceF`). -/
def trackF : TrackedFace :=
  { faceId := 2, maskNumber := 2, center := ⟨0.9, 0.5⟩, size := 0.2, rotation := 0,
    landmarks := faceF, framesMissing := 1, firstSeen := 0, lastSeen := 0 }

/-- The registry after one frame with `faceA` and `faceF`. -/
def regAF : Registry := { trackedFaces := [trackA, trackF], nextFaceId := 3 }

/-- Six simultaneous detections, pairwise at least 0.2 apart in x. -/
def sixFaces : List Landmarks :=
  [mkLandmarks ⟨0, 0.5⟩, mkLandmarks ⟨0.2, 0.5⟩, mkLandmarks ⟨0.4, 0.5⟩,
   mkLandmarks ⟨0.6, 0.5⟩, mkLandmarks ⟨0.8, 0.5⟩, mkLandmarks ⟨1, 0.5⟩]

/-- The detection extracted from the six-face frame at position `i`,
centre x-coordinate `x`. -/
def sixDet (i : ℕ) (x : ℝ) : Detection :=
  { landmarks := mkLandmarks ⟨x, 0.5⟩, center := some ⟨x, 0.5⟩, size := 0.2,
    rotation := 0, originalIndex := i }

/-- The track created for the six-face frame detection with id `id`,
mask `mask` and centre x-coordinate `x`. -/
def sixTrack (id mask : ℕ) (x : ℝ) : TrackedFace :=
  newTrackedFace id mask (sixDet (id - 1) x) ⟨x, 0.5⟩ 0

/-- `sixTrack` as it stands at the end of its creating frame: newly created
tracks are not recorded as matched, so `framesMissing` is already 1. -/
def sixTrackAged (id mask : ℕ) (x : ℝ) : TrackedFace :=
  { sixTrack id mask x with framesMissing := 1 }

/-- A second frame for the six-face scenario, with detections matching only
the tracks at x-coordinates 0.2, 0.4 and 1 (ids 2, 3 and 6). -/
def hitFaces : List Landmarks :=
  [mkLandmarks ⟨0.2, 0.5⟩, mkLandmarks ⟨0.4, 0.5⟩, mkLandmarks ⟨1, 0.5⟩]

/-- The registry reached from a fresh registry by the six-face frame: six
tracks wearing masks 1, 2, 3, 4, 5 and 1, each with one missed frame. -/
def st6 : Registry :=
  { trackedFaces := [sixTrackAged 1 1 0, sixTrackAged 2 2 0.2, sixTrackAged 3 3 0.4,
      sixTrackAged 4 4 0.6, sixTrackAged 5 5 0.8, sixTrackAged 6 1 1],
    nextFaceId := 7 }

/-- The concrete match result of `findBestMatch` against `[trackA]` for a
detection at the centre and size of `trackA`. -/
def matchA : MatchResult :=
  ⟨1, trackA, calculateSimilarity ⟨0.5, 0.5⟩ 0.2 trackA.center trackA.size⟩

/-- A cached previous pose for face id 1. -/
def pdW : PrevFaceData := ⟨1, 100, 100, 0, 200⟩

/-- A concrete display geometry (640x480 canvas, 1280x720 video). -/
def gW : DisplayGeom := ⟨640, 480, 1280, 720⟩

/-- A malformed landmark array: non-empty but missing every required
landmark index. -/
def lmBad : Landmarks := [some ⟨0, 0⟩]

/-- Internal well-formedness of a tracked-face list with respect to an id
counter: mask numbers lie in `[1, maxFaces]` and can collide only at the
overflow-fallback value `1`; face ids are below the counter and pairwise
distinct. -/
def TracksInv (tracks : List TrackedFace) (nextId : ℕ) : Prop :=
  (∀ tf ∈ tracks, 1 ≤ tf.maskNumber ∧ tf.maskNumber ≤ maxFaces) ∧
  List.Pairwise (fun a b => a.maskNumber = b.maskNumber → a.maskNumber = 1) tracks ∧
  (∀ tf ∈ tracks, tf.faceId < nextId) ∧
  List.Pairwise (fun a b => a.faceId ≠ b.faceId) tracks

end

/-! Evaluation lemmas for the landmark arrays used in concrete scenarios. -/

theorem lmGet_mkLandmarks (c : Point) (i : ℕ) (h : i < 478) :
    lmGet (mkLandmarks c) i =
      if i = 1 ∨ i = 33 ∨ i = 133 ∨ i = 263 ∨ i = 362 then some c else none := by
  simp [lmGet, mkLandmarks, List.getD, List.getElem?_map, List.getElem?_range, h]

theorem mkLandmarks_length (c : Point) : (mkLandmarks c).length = 478 := by
  simp [mkLandmarks]

theorem mkLandmarks_isEmpty (c : Point) : (mkLandmarks c).isEmpty = false := by
  cases e : mkLandmarks c with
  | nil =>
      have h := mkLandmarks_length c
      rw [e] at h
      simp at h
  | cons a l => simp

theorem lmGet_mk_33 (c : Point) : lmGet (mkLandmarks c) 33 = some c := by
  rw [lmGet_mkLandmarks c 33 (by norm_num)]
  norm_num

theorem lmGet_mk_133 (c : Point) : lmGet (mkLandmarks c) 133 = some c := by
  rw [lmGet_mkLandmarks c 133 (by norm_num)]
  norm_num

theorem lmGet_mk_362 (c : Point) : lmGet (mkLandmarks c) 362 = some c := by
  rw [lmGet_mkLandmarks c 362 (by norm_num)]
  norm_num

theorem lmGet_mk_263 (c : Point) : lmGet (mkLandmarks c) 263 = some c := by
  rw [lmGet_mkLandmarks c 263 (by norm_num)]
  norm_num

theorem lmGet_mk_1 (c : Point) : lmGet (mkLandmarks c) 1 = some c := by
  rw [lmGet_mkLandmarks c 1 (by norm_num)]
  norm_num

theorem lmGet_mk_10 (c : Point) : lmGet (mkLandmarks c) 10 = none := by
  rw [lmGet_mkLandmarks c 10 (by norm_num)]
  norm_num

theorem lmGet_mk_152 (c : Point) : lmGet (mkLandmarks c) 152 = none := by
  rw [lmGet_mkLandmarks c 152 (by norm_num)]
  norm_num

theorem lmGet_mk_234 (c : Point) : lmGet (mkLandmarks c) 234 = none := by
  rw [lmGet_mkLandmarks c 234 (by norm_num)]
  norm_num

theorem lmGet_mk_454 (c : Point) : lmGet (mkLandmarks c) 454 = none := by
  rw [lmGet_mkLandmarks c 454 (by norm_num)]
  norm_num

theorem calculateFaceCenter_mkLandmarks (c : Point) :
    calculateFaceCenter (mkLandmarks c) = some c := by
  rw [calculateFaceCenter]
  rw [mkLandmarks_isEmpty, lmGet_mk_33, lmGet_mk_133, lmGet_mk_362, lmGet_mk_263, lmGet_mk_1]
  simp only [Bool.false_eq_true, if_false]
  congr 1
  ext <;> ring

theorem calculateFaceSize_mkLandmarks (c : Point) :
    calculateFaceSize (mkLandmarks c) = 0.2 := by
  rw [calculateFaceSize]
  rw [mkLandmarks_isEmpty, lmGet_mk_10, lmGet_mk_152, lmGet_mk_234, lmGet_mk_454]
  simp

theorem atan2_zero_zero : atan2 0 0 = 0 := by
  simp [atan2]

theorem calculateHeadRotation_mkLandmarks (c : Point) :
    calculateHeadRotation (mkLandmarks c) = 0 := by
  rw [calculateHeadRotation]
  rw [mkLandmarks_isEmpty, lmGet_mk_33, lmGet_mk_133, lmGet_mk_362, lmGet_mk_263]
  simp only [Bool.false_eq_true, if_false]
  rw [sub_self, sub_self, atan2_zero_zero, zero_mul]

theorem mkDetection_mkLandmarks (i : ℕ) (c : Point) :
    mkDetection i (mkLandmarks c) =
      { landmarks := mkLandmarks c, center := some c, size := 0.2, rotation := 0,
        originalIndex := i } := by
  rw [mkDetection, calculateFaceCenter_mkLandmarks, calculateFaceSize_mkLandmarks,
    calculateHeadRotation_mkLandmarks]

/-! Similarity-score lemmas. -/

theorem calculateDistance_self (c : Point) : calculateDistance c c = 0 := by
  simp [calculateDistance]

theorem calculateSimilarity_self (c : Point) (s : ℝ) (hs : 0 < s) :
    calculateSimilarity c s c s = 1 := by
  rw [calculateSimilarity, calculateDistance_self]
  norm_num [matchThreshold]

theorem abs_le_calculateDistance_x (c1 c2 : Point) :
    |c1.x - c2.x| ≤ calculateDistance c1 c2 := by
  rw [calculateDistance, ← Real.sqrt_sq_eq_abs]
  apply Real.sqrt_le_sqrt
  nlinarith [sq_nonneg (c1.y - c2.y)]

theorem calculateSimilarity_le_of_far (c1 c2 : Point) (s1 s2 : ℝ)
    (hd : matchThreshold ≤ calculateDistance c1 c2) (hs : 0 < max s1 s2) :
    calculateSimilarity c1 s1 c2 s2 ≤ 0.3 := by
  rw [calculateSimilarity]
  have hT : (0 : ℝ) < matchThreshold := by norm_num [matchThreshold]
  have h1 : max 0 (1 - calculateDistance c1 c2 / matchThreshold) = 0 := by
    apply max_eq_left
    have := (one_le_div hT).mpr hd
    linarith
  have h2 : max 0 (1 - |s1 - s2| / max s1 s2) ≤ 1 := by
    have : 0 ≤ |s1 - s2| / max s1 s2 := div_nonneg (abs_nonneg _) hs.le
    apply max_le (by norm_num) (by linarith)
  rw [h1]
  nlinarith

theorem calculateSimilarity_le_of_far_x (c1 c2 : Point) (s1 s2 : ℝ)
    (hd : matchThreshold ≤ |c1.x - c2.x|) (hs : 0 < max s1 s2) :
    calculateSimilarity c1 s1 c2 s2 ≤ 0.3 := by
  apply calculateSimilarity_le_of_far _ _ _ _
    (le_trans hd (abs_le_calculateDistance_x c1 c2)) hs

/-! `findBestMatch` lemmas. -/

theorem foldl_findBestMatchStep_of_le (c : Point) (s : ℝ) (l : List TrackedFace)
    (acc : Option MatchResult × ℝ)
    (h : ∀ tf ∈ l, calculateSimilarity c s tf.center tf.size ≤ 0.6) :
    l.foldl (findBestMatchStep c s) acc = acc := by
  induction l generalizing acc with
  | nil => rfl
  | cons tf l ih =>
    rw [List.foldl_cons]
    have hstep : findBestMatchStep c s acc tf = acc := by
      rw [findBestMatchStep, if_neg]
      exact fun hh => absurd hh.2 (not_lt.mpr (h tf (by simp)))
    rw [hstep]
    exact ih _ (fun tf ht => h tf (by simp [ht]))

theorem findBestMatch_eq_none (c : Point) (s : ℝ) (tracked : List TrackedFace)
    (h : ∀ tf ∈ tracked, calculateSimilarity c s tf.center tf.size ≤ 0.6) :
    findBestMatch c s tracked = none := by
  rw [findBestMatch, foldl_findBestMatchStep_of_le c s tracked _ h]

theorem findBestMatch_nil (c : Point) (s : ℝ) : findBestMatch c s [] = none := rfl

theorem findBestMatch_singleton (c : Point) (s : ℝ) (tf : TrackedFace)
    (h : 0.6 < calculateSimilarity c s tf.center tf.size) :
    findBestMatch c s [tf] =
      some ⟨tf.faceId, tf, calculateSimilarity c s tf.center tf.size⟩ := by
  rw [findBestMatch, List.foldl_cons, List.foldl_nil, findBestMatchStep, if_pos]
  constructor
  · exact lt_trans (by norm_num) h
  · exact h

/-! `getNextMaskNumber` lemmas. -/

theorem find?_range'_least (p : ℕ → Bool) (n k : ℕ) :
    ((List.range' k n).find? p = none → ∀ j, k ≤ j → j < k + n → p j = false) ∧
    (∀ m, (List.range' k n).find? p = some m →
      p m = true ∧ k ≤ m ∧ m < k + n ∧ ∀ j, k ≤ j → j < m → p j = false) := by
  induction n generalizing k with
  | zero =>
    refine ⟨fun _ j h1 h2 => absurd (lt_of_le_of_lt h1 h2) (by omega), fun m h => ?_⟩
    simp [List.range'] at h
  | succ n ih =>
    have hr : List.range' k (n + 1) = k :: List.range' (k + 1) n := rfl
    rw [hr]
    cases hp : p k with
    | true =>
      rw [List.find?_cons_of_pos _ hp]
      refine ⟨fun h => by simp at h, fun m h => ?_⟩
      have hm : m = k := by simpa using h.symm
      subst hm
      exact ⟨hp, le_refl _, by omega, fun j h1 h2 => absurd (lt_of_le_of_lt h1 h2) (by omega)⟩
    | false =>
      have hstep : (k :: List.range' (k + 1) n).find? p = (List.range' (k + 1) n).find? p := by
        simp [List.find?, hp]
      rw [hstep]
      refine ⟨fun h j h1 h2 => ?_, fun m h => ?_⟩
      · rcases eq_or_lt_of_le h1 with h1 | h1
        · rw [h1] at hp
          exact hp
        · exact (ih (k + 1)).1 h j h1 (by omega)
      · obtain ⟨q1, q2, q3, q4⟩ := (ih (k + 1)).2 m h
        refine ⟨q1, by omega, by omega, fun j h1 h2 => ?_⟩
        rcases eq_or_lt_of_le h1 with h1 | h1
        · rw [h1] at hp
          exact hp
        · exact q4 j h1 h2

theorem getNextMaskNumber_mem_range (tracked : List TrackedFace) :
    1 ≤ getNextMaskNumber tracked ∧ getNextMaskNumber tracked ≤ maxFaces := by
  rw [getNextMaskNumber]
  cases h : (List.range' 1 maxFaces).find? (fun i =>
      !((tracked.map (fun face => face.maskNumber)).contains i)) with
  | none => simp [h, maxFaces]
  | some m =>
    obtain ⟨_, q2, q3, _⟩ := (find?_range'_least _ maxFaces 1).2 m h
    simp only [h, Option.getD_some]
    omega

theorem getNextMaskNumber_not_used (tracked : List TrackedFace)
    (hfree : ∃ i, 1 ≤ i ∧ i ≤ maxFaces ∧ i ∉ tracked.map (fun face => face.maskNumber)) :
    getNextMaskNumber tracked ∉ tracked.map (fun face => face.maskNumber) ∧
    ∀ j, 1 ≤ j → j < getNextMaskNumber tracked →
      j ∈ tracked.map (fun face => face.maskNumber) := by
  rw [getNextMaskNumber]
  cases h : (List.range' 1 maxFaces).find? (fun i =>
      !((tracked.map (fun face => face.maskNumber)).contains i)) with
  | none =>
    exfalso
    obtain ⟨i, hi1, hi2, hi3⟩ := hfree
    have := (find?_range'_least _ maxFaces 1).1 h i hi1 (by omega)
    simp [List.elem_iff] at this
    exact hi3 (List.mem_map.mpr this)
  | some m =>
    obtain ⟨q1, _, _, q4⟩ := (find?_range'_least _ maxFaces 1).2 m h
    simp only [h, Option.getD_some]
    constructor
    · simpa [List.elem_iff] using q1
    · intro j hj1 hj2
      have := q4 j hj1 hj2
      simpa [List.elem_iff] using this

theorem getNextMaskNumber_all_used (tracked : List TrackedFace)
    (hall : ∀ i, 1 ≤ i → i ≤ maxFaces → i ∈ tracked.map (fun face => face.maskNumber)) :
    getNextMaskNumber tracked = 1 := by
  rw [getNextMaskNumber]
  cases h : (List.range' 1 maxFaces).find? (fun i =>
      !((tracked.map (fun face => face.maskNumber)).contains i)) with
  | none => simp
  | some m =>
    obtain ⟨q1, q2, q3, _⟩ := (find?_range'_least _ maxFaces 1).2 m h
    exfalso
    have hm := hall m q2 (by omega)
    simp [List.elem_iff, hm] at q1

/-! `matchStep` equations. -/

theorem matchStep_none_center (now : ℤ) (s : MatchLoopState) (newFace : Detection)
    (h : newFace.center = none) : matchStep now s newFace = s := by
  simp only [matchStep, h]

theorem matchStep_matched (now : ℤ) (s : MatchLoopState) (newFace : Detection)
    (c : Point) (m : MatchResult) (h : newFace.center = some c)
    (hm : findBestMatch c newFace.size s.trackedFaces = some m) :
    matchStep now s newFace =
      { trackedFaces := s.trackedFaces.map
          (fun tf => if tf.faceId = m.faceId then updateTrackedFace newFace c now tf else tf)
        nextFaceId := s.nextFaceId
        matchedFaceIds := s.matchedFaceIds ++ [m.faceId]
        results := s.results ++ [tagFace newFace m.faceId m.trackedFace.maskNumber] } := by
  simp only [matchStep, h, hm]

theorem matchStep_unmatched (now : ℤ) (s : MatchLoopState) (newFace : Detection)
    (c : Point) (h : newFace.center = some c)
    (hm : findBestMatch c newFace.size s.trackedFaces = none) :
    matchStep now s newFace =
      { trackedFaces := s.trackedFaces ++
          [newTrackedFace s.nextFaceId (getNextMaskNumber s.trackedFaces) newFace c now]
        nextFaceId := s.nextFaceId + 1
        matchedFaceIds := s.matchedFaceIds
        results := s.results ++
          [tagFace newFace s.nextFaceId (getNextMaskNumber s.trackedFaces)] } := by
  simp only [matchStep, h, hm]

/-! Preservation of `TracksInv`. -/

theorem TracksInv_nil (n : ℕ) : TracksInv [] n := by
  refine ⟨by simp, by simp, by simp, by simp⟩

theorem TracksInv_map (l : List TrackedFace) (n : ℕ) (f : TrackedFace → TrackedFace)
    (hmask : ∀ tf, (f tf).maskNumber = tf.maskNumber)
    (hid : ∀ tf, (f tf).faceId = tf.faceId) (h : TracksInv l n) :
    TracksInv (l.map f) n := by
  obtain ⟨h1, h2, h3, h4⟩ := h
  refine ⟨?_, ?_, ?_, ?_⟩
  · intro tf htf
    obtain ⟨a, ha, rfl⟩ := List.mem_map.mp htf
    rw [hmask]
    exact h1 a ha
  · refine h2.map f (fun a b hab => ?_)
    rw [hmask, hmask]
    exact hab
  · intro tf htf
    obtain ⟨a, ha, rfl⟩ := List.mem_map.mp htf
    rw [hid]
    exact h3 a ha
  · refine h4.map f (fun a b hab => ?_)
    rw [hid, hid]
    exact hab

theorem TracksInv_mono (l : List TrackedFace) (n n₂ : ℕ) (hn : n ≤ n₂)
    (h : TracksInv l n) : TracksInv l n₂ :=
  ⟨h.1, h.2.1, fun tf htf => lt_of_lt_of_le (h.2.2.1 tf htf) hn, h.2.2.2⟩

theorem TracksInv_sublist (l₂ l : List TrackedFace) (n : ℕ) (hs : l₂.Sublist l)
    (h : TracksInv l n) : TracksInv l₂ n :=
  ⟨fun tf htf => h.1 tf (hs.mem htf), h.2.1.sublist hs,
    fun tf htf => h.2.2.1 tf (hs.mem htf), h.2.2.2.sublist hs⟩

theorem TracksInv_append_new (l : List TrackedFace) (n : ℕ) (d : Detection) (c : Point)
    (now : ℤ) (h : TracksInv l n) :
    TracksInv (l ++ [newTrackedFace n (getNextMaskNumber l) d c now]) (n + 1) := by
  obtain ⟨h1, h2, h3, h4⟩ := h
  have hrange := getNextMaskNumber_mem_range l
  have hmask : ∀ a ∈ l, a.maskNumber = getNextMaskNumber l → getNextMaskNumber l = 1 := by
    intro a ha hma
    by_contra hne
    have hfree : ∃ i, 1 ≤ i ∧ i ≤ maxFaces ∧ i ∉ l.map (fun face => face.maskNumber) := by
      by_contra hforall
      push_neg at hforall
      exact hne (getNextMaskNumber_all_used l hforall)
    have := (getNextMaskNumber_not_used l hfree).1
    exact this (List.mem_map.mpr ⟨a, ha, hma⟩)
  refine ⟨?_, ?_, ?_, ?_⟩
  · intro tf htf
    rcases List.mem_append.mp htf with htf | htf
    · exact h1 tf htf
    · simp only [List.mem_singleton] at htf
      subst htf
      exact hrange
  · rw [List.pairwise_append]
    refine ⟨h2, by simp, ?_⟩
    intro a ha b hb
    simp only [List.mem_singleton] at hb
    subst hb
    intro hab
    rw [hab]
    exact hmask a ha (by simpa [newTrackedFace] using hab)
  · intro tf htf
    rcases List.mem_append.mp htf with htf | htf
    · exact lt_of_lt_of_le (h3 tf htf) (by omega)
    · simp only [List.mem_singleton] at htf
      subst htf
      simp [newTrackedFace]
  · rw [List.pairwise_append]
    refine ⟨h4, by simp, ?_⟩
    intro a ha b hb
    simp only [List.mem_singleton] at hb
    subst hb
    simp only [newTrackedFace]
    exact fun he => absurd (he ▸ h3 a ha) (lt_irrefl n)

theorem matchStep_tracksInv (now : ℤ) (s : MatchLoopState) (newFace : Detection)
    (h : TracksInv s.trackedFaces s.nextFaceId) :
    TracksInv (matchStep now s newFace).trackedFaces (matchStep now s newFace).nextFaceId := by
  cases hc : newFace.center with
  | none => rw [matchStep_none_center now s newFace hc]; exact h
  | some c =>
    cases hm : findBestMatch c newFace.size s.trackedFaces with
    | some m =>
      rw [matchStep_matched now s newFace c m hc hm]
      exact TracksInv_map _ _ _
        (fun tf => by by_cases hb : tf.faceId = m.faceId <;> simp [hb, updateTrackedFace])
        (fun tf => by by_cases hb : tf.faceId = m.faceId <;> simp [hb, updateTrackedFace]) h
    | none =>
      rw [matchStep_unmatched now s newFace c hc hm]
      exact TracksInv_append_new _ _ _ _ _ h

theorem foldl_matchStep_tracksInv (now : ℤ) (dets : List Detection) (s : MatchLoopState)
    (h : TracksInv s.trackedFaces s.nextFaceId) :
    TracksInv (dets.foldl (matchStep now) s).trackedFaces
      (dets.foldl (matchStep now) s).nextFaceId := by
  induction dets generalizing s with
  | nil => exact h
  | cons d ds ih =>
    rw [List.foldl_cons]
    exact ih _ (matchStep_tracksInv now s d h)

theorem runMatching_tracksInv (st : Registry) (dets : List Detection) (now : ℤ)
    (h : TracksInv st.trackedFaces st.nextFaceId) :
    TracksInv (runMatching st dets now).trackedFaces (runMatching st dets now).nextFaceId :=
  foldl_matchStep_tracksInv now dets _ h

theorem processDetections_tracksInv (st : Registry) (currentFaces : List Landmarks)
    (now : ℤ) (h : TracksInv st.trackedFaces st.nextFaceId) :
    TracksInv (processDetections st currentFaces now).1.trackedFaces
      (processDetections st currentFaces now).1.nextFaceId := by
  rw [processDetections]
  cases he : currentFaces.isEmpty with
  | true => simpa using TracksInv_nil st.nextFaceId
  | false =>
    simp only [he, Bool.false_eq_true, if_false]
    have hrun := runMatching_tracksInv st (convertDetections currentFaces) now h
    have hmap := TracksInv_map _ _
      (markMissing (runMatching st (convertDetections currentFaces) now).matchedFaceIds)
      (fun tf => by rw [markMissing]; split <;> rfl)
      (fun tf => by rw [markMissing]; split <;> rfl) hrun
    exact TracksInv_sublist _ _ _ (List.filter_sublist _) hmap

theorem reachable_tracksInv (st : Registry) (h : Reachable st) :
    TracksInv st.trackedFaces st.nextFaceId := by
  induction h with
  | fresh => exact TracksInv_nil 1
  | step st currentFaces now _ ih => exact processDetections_tracksInv st currentFaces now ih
  | reset st st₀ _ _ => exact TracksInv_nil 1

/-! Fold lemmas about the matching loop. -/

theorem matchStep_matchedFaceIds_mono (now : ℤ) (s : MatchLoopState) (d : Detection)
    (a : ℕ) (h : a ∈ s.matchedFaceIds) : a ∈ (matchStep now s d).matchedFaceIds := by
  cases hc : d.center with
  | none => rw [matchStep_none_center now s d hc]; exact h
  | some c =>
    cases hm : findBestMatch c d.size s.trackedFaces with
    | some m =>
      rw [matchStep_matched now s d c m hc hm]
      exact List.mem_append.mpr (Or.inl h)
    | none =>
      rw [matchStep_unmatched now s d c hc hm]
      exact h

theorem foldl_matchStep_matchedFaceIds_mono (now : ℤ) (dets : List Detection)
    (s : MatchLoopState) (a : ℕ) (h : a ∈ s.matchedFaceIds) :
    a ∈ (dets.foldl (matchStep now) s).matchedFaceIds := by
  induction dets generalizing s with
  | nil => exact h
  | cons d ds ih =>
    rw [List.foldl_cons]
    exact ih _ (matchStep_matchedFaceIds_mono now s d a h)

theorem foldl_matchStep_unmatched_mem (now : ℤ) (dets : List Detection)
    (s : MatchLoopState) (tf : TrackedFace) (htf : tf ∈ s.trackedFaces)
    (hun : tf.faceId ∉ (dets.foldl (matchStep now) s).matchedFaceIds) :
    tf ∈ (dets.foldl (matchStep now) s).trackedFaces := by
  induction dets generalizing s with
  | nil => exact htf
  | cons d ds ih =>
    rw [List.foldl_cons] at hun ⊢
    refine ih (matchStep now s d) ?_ hun
    cases hc : d.center with
    | none => rw [matchStep_none_center now s d hc]; exact htf
    | some c =>
      cases hm : findBestMatch c d.size s.trackedFaces with
      | some m =>
        rw [matchStep_matched now s d c m hc hm]
        have hne : tf.faceId ≠ m.faceId := by
          intro he
          apply hun
          apply foldl_matchStep_matchedFaceIds_mono
          rw [matchStep_matched now s d c m hc hm]
          simp [he]
        refine List.mem_map.mpr ⟨tf, htf, ?_⟩
        rw [if_neg hne]
      | none =>
        rw [matchStep_unmatched now s d c hc hm]
        exact List.mem_append.mpr (Or.inl htf)

theorem matchStep_mask_holder (now : ℤ) (s : MatchLoopState) (d : Detection)
    (id mask : ℕ) (hmask : 2 ≤ mask)
    (hheld : ∃ tf ∈ s.trackedFaces, tf.faceId = id ∧ tf.maskNumber = mask)
    (honly : ∀ tf ∈ s.trackedFaces, tf.maskNumber = mask → tf.faceId = id) :
    (∃ tf ∈ (matchStep now s d).trackedFaces, tf.faceId = id ∧ tf.maskNumber = mask) ∧
    (∀ tf ∈ (matchStep now s d).trackedFaces, tf.maskNumber = mask → tf.faceId = id) := by
  cases hc : d.center with
  | none =>
    rw [matchStep_none_center now s d hc]
    exact ⟨hheld, honly⟩
  | some c =>
    cases hm : findBestMatch c d.size s.trackedFaces with
    | some m =>
      rw [matchStep_matched now s d c m hc hm]
      have hid : ∀ a : TrackedFace,
          (if a.faceId = m.faceId then updateTrackedFace d c now a else a).faceId = a.faceId :=
        fun a => by split <;> rfl
      have hmk : ∀ a : TrackedFace,
          (if a.faceId = m.faceId then updateTrackedFace d c now a else a).maskNumber =
            a.maskNumber :=
        fun a => by split <;> rfl
      constructor
      · obtain ⟨tf, htf, h1, h2⟩ := hheld
        refine ⟨(fun tf => if tf.faceId = m.faceId then updateTrackedFace d c now tf else tf) tf,
          List.mem_map.mpr ⟨tf, htf, rfl⟩, ?_, ?_⟩
        · rw [hid tf]
          exact h1
        · rw [hmk tf]
          exact h2
      · intro tf htf hmm
        obtain ⟨a, ha, rfl⟩ := List.mem_map.mp htf
        rw [hmk a] at hmm
        rw [hid a]
        exact honly a ha hmm
    | none =>
      rw [matchStep_unmatched now s d c hc hm]
      have hnew : (newTrackedFace s.nextFaceId (getNextMaskNumber s.trackedFaces)
          d c now).maskNumber ≠ mask := by
        simp only [newTrackedFace]
        obtain ⟨w, hw, hw1, hw2⟩ := hheld
        by_cases hall : ∀ i, 1 ≤ i → i ≤ maxFaces →
            i ∈ s.trackedFaces.map (fun face => face.maskNumber)
        · rw [getNextMaskNumber_all_used s.trackedFaces hall]
          omega
        · push_neg at hall
          obtain ⟨i, hi1, hi2, hi3⟩ := hall
          have := (getNextMaskNumber_not_used s.trackedFaces ⟨i, hi1, hi2, hi3⟩).1
          intro he
          exact this (he ▸ List.mem_map.mpr ⟨w, hw, hw2⟩)
      constructor
      · obtain ⟨tf, htf, h1, h2⟩ := hheld
        exact ⟨tf, List.mem_append.mpr (Or.inl htf), h1, h2⟩
      · intro tf htf hmm
        rcases List.mem_append.mp htf with htf | htf
        · exact honly tf htf hmm
        · simp only [List.mem_singleton] at htf
          subst htf
          exact absurd hmm hnew

theorem foldl_matchStep_mask_holder (now : ℤ) (dets : List Detection)
    (s : MatchLoopState) (id mask : ℕ) (hmask : 2 ≤ mask)
    (hheld : ∃ tf ∈ s.trackedFaces, tf.faceId = id ∧ tf.maskNumber = mask)
    (honly : ∀ tf ∈ s.trackedFaces, tf.maskNumber = mask → tf.faceId = id) :
    (∃ tf ∈ (dets.foldl (matchStep now) s).trackedFaces,
        tf.faceId = id ∧ tf.maskNumber = mask) ∧
    (∀ tf ∈ (dets.foldl (matchStep now) s).trackedFaces,
        tf.maskNumber = mask → tf.faceId = id) := by
  induction dets generalizing s with
  | nil => exact ⟨hheld, honly⟩
  | cons d ds ih =>
    rw [List.foldl_cons]
    obtain ⟨q1, q2⟩ := matchStep_mask_holder now s d id mask hmask hheld honly
    exact ih _ q1 q2

theorem matchStep_length_le (now : ℤ) (s : MatchLoopState) (d : Detection) :
    (matchStep now s d).trackedFaces.length ≤ s.trackedFaces.length + 1 := by
  cases hc : d.center with
  | none => rw [matchStep_none_center now s d hc]; omega
  | some c =>
    cases hm : findBestMatch c d.size s.trackedFaces with
    | some m =>
      rw [matchStep_matched now s d c m hc hm]
      simp
    | none =>
      rw [matchStep_unmatched now s d c hc hm]
      simp

theorem foldl_matchStep_length_le (now : ℤ) (dets : List Detection) (s : MatchLoopState) :
    (dets.foldl (matchStep now) s).trackedFaces.length ≤
      s.trackedFaces.length + dets.length := by
  induction dets generalizing s with
  | nil => simp
  | cons d ds ih =>
    rw [List.foldl_cons]
    calc (ds.foldl (matchStep now) (matchStep now s d)).trackedFaces.length
        ≤ (matchStep now s d).trackedFaces.length + ds.length := ih _
      _ ≤ s.trackedFaces.length + (d :: ds).length := by
          have := matchStep_length_le now s d
          simp only [List.length_cons]
          omega

theorem convertDetections_length_le (currentFaces : List Landmarks) :
    (convertDetections currentFaces).length ≤ currentFaces.length := by
  calc (convertDetections currentFaces).length
      ≤ (currentFaces.enum.map (fun p => mkDetection p.1 p.2)).length :=
        List.length_filter_le _ _
    _ = currentFaces.length := by simp

/-! Lemmas about the removal phase and whole-call facts. -/

theorem mem_eq_of_pairwise_faceId (l : List TrackedFace)
    (h : List.Pairwise (fun a b => a.faceId ≠ b.faceId) l) (a b : TrackedFace)
    (ha : a ∈ l) (hb : b ∈ l) (he : a.faceId = b.faceId) : a = b := by
  induction l with
  | nil => cases ha
  | cons x xs ih =>
    rcases List.mem_cons.mp ha with ha | ha <;> rcases List.mem_cons.mp hb with hb | hb
    · rw [ha, hb]
    · exact absurd he (ha ▸ (List.pairwise_cons.mp h).1 b hb)
    · exact absurd he.symm (hb ▸ (List.pairwise_cons.mp h).1 a ha)
    · exact ih (List.pairwise_cons.mp h).2 ha hb

theorem contains_eq_false_of_not_mem (l : List ℕ) (a : ℕ) (h : a ∉ l) :
    l.contains a = false := by
  simp [List.elem_iff, h]

theorem runMatching_length_le (st : Registry) (dets : List Detection) (now : ℤ) :
    (runMatching st dets now).trackedFaces.length ≤
      st.trackedFaces.length + dets.length := by
  have h := foldl_matchStep_length_le now dets
    { trackedFaces := st.trackedFaces, nextFaceId := st.nextFaceId,
      matchedFaceIds := [], results := [] }
  simpa [runMatching] using h

theorem processDetections_count_le (st : Registry) (currentFaces : List Landmarks)
    (now : ℤ) :
    (processDetections st currentFaces now).1.trackedFaces.length ≤
      st.trackedFaces.length + currentFaces.length := by
  rw [processDetections]
  cases he : currentFaces.isEmpty with
  | true => simp
  | false =>
    simp only [he, Bool.false_eq_true, if_false]
    have h1 := List.length_filter_le
      (fun tf => !(shouldRemove (runMatching st (convertDetections currentFaces)
        now).matchedFaceIds now tf))
      ((runMatching st (convertDetections currentFaces) now).trackedFaces.map
        (markMissing (runMatching st (convertDetections currentFaces) now).matchedFaceIds))
    have h2 : ((runMatching st (convertDetections currentFaces) now).trackedFaces.map
        (markMissing (runMatching st (convertDetections currentFaces)
          now).matchedFaceIds)).length =
        (runMatching st (convertDetections currentFaces) now).trackedFaces.length :=
      List.length_map _ _
    have h3 := runMatching_length_le st (convertDetections currentFaces) now
    have h4 := convertDetections_length_le currentFaces
    omega

theorem processDetections_nil_input (st : Registry) (now : ℤ) :
    processDetections st [] now = ({ st with trackedFaces := [] }, []) := by
  rw [processDetections]
  simp [convertDetections, runMatching]

theorem convertDetections_eq_nil (currentFaces : List Landmarks)
    (h : ∀ lm ∈ currentFaces, calculateFaceCenter lm = none) :
    convertDetections currentFaces = [] := by
  rw [convertDetections, List.filter_eq_nil_iff]
  intro d hd
  obtain ⟨p, hp, rfl⟩ := List.mem_map.mp hd
  have hmem : p.2 ∈ currentFaces := List.snd_mem_of_mem_enum hp
  simp [mkDetection, h p.2 hmem]

theorem processDetections_results_nil (st : Registry) (currentFaces : List Landmarks)
    (now : ℤ) (h : ∀ lm ∈ currentFaces, calculateFaceCenter lm = none) :
    (processDetections st currentFaces now).2 = [] := by
  rw [processDetections, convertDetections_eq_nil currentFaces h]
  cases he : currentFaces.isEmpty with
  | true => simp
  | false => simp [he, runMatching]

theorem convertDetections_center_isSome (currentFaces : List Landmarks) :
    ∀ d ∈ convertDetections currentFaces, d.center.isSome = true := by
  intro d hd
  exact (List.mem_filter.mp hd).2

theorem foldl_matchStep_results_center (now : ℤ) (dets : List Detection)
    (s : MatchLoopState) (hd : ∀ d ∈ dets, d.center.isSome = true)
    (hs : ∀ e ∈ s.results, e.center.isSome = true) :
    ∀ e ∈ (dets.foldl (matchStep now) s).results, e.center.isSome = true := by
  induction dets generalizing s with
  | nil => exact hs
  | cons d ds ih =>
    rw [List.foldl_cons]
    refine ih _ (fun d2 h2 => hd d2 (by simp [h2])) ?_
    cases hc : d.center with
    | none =>
      exfalso
      have := hd d (by simp)
      rw [hc] at this
      simp at this
    | some c =>
      cases hm : findBestMatch c d.size s.trackedFaces with
      | some m =>
        rw [matchStep_matched now s d c m hc hm]
        intro e he
        rcases List.mem_append.mp he with he | he
        · exact hs e he
        · simp only [List.mem_singleton] at he
          subst he
          simp [tagFace, hc]
      | none =>
        rw [matchStep_unmatched now s d c hc hm]
        intro e he
        rcases List.mem_append.mp he with he | he
        · exact hs e he
        · simp only [List.mem_singleton] at he
          subst he
          simp [tagFace, hc]

theorem processDetections_results_center (st : Registry) (currentFaces : List Landmarks)
    (now : ℤ) :
    ∀ e ∈ (processDetections st currentFaces now).2, e.center.isSome = true := by
  rw [processDetections]
  cases he : currentFaces.isEmpty with
  | true => simp
  | false =>
    simp only [he, Bool.false_eq_true, if_false]
    exact foldl_matchStep_results_center now _ _
      (convertDetections_center_isSome currentFaces) (by simp)

theorem mem_eq_of_pairwise_mask (l : List TrackedFace)
    (h : List.Pairwise (fun a b => a.maskNumber = b.maskNumber → a.maskNumber = 1) l)
    (a b : TrackedFace) (ha : a ∈ l) (hb : b ∈ l) (he : a.maskNumber = b.maskNumber)
    (h2 : 2 ≤ a.maskNumber) : a = b := by
  induction l with
  | nil => cases ha
  | cons x xs ih =>
    rcases List.mem_cons.mp ha with ha | ha <;> rcases List.mem_cons.mp hb with hb | hb
    · rw [ha, hb]
    · exfalso
      have hx := (List.pairwise_cons.mp h).1 b hb (by rw [← ha, he])
      rw [← ha] at hx
      omega
    · exfalso
      have hx := (List.pairwise_cons.mp h).1 a ha (by rw [← hb, he])
      rw [← hb] at hx
      rw [he, hx] at h2
      omega
    · exact ih (List.pairwise_cons.mp h).2 ha hb

theorem processDetections_expires (st : Registry) (currentFaces : List Landmarks)
    (now : ℤ) (tf : TrackedFace) (hreach : Reachable st) (htf : tf ∈ st.trackedFaces)
    (hun : tf.faceId ∉ (runMatching st (convertDetections currentFaces)
      now).matchedFaceIds)
    (hfm : maxFramesMissing ≤ tf.framesMissing) :
    (∀ tf2 ∈ (processDetections st currentFaces now).1.trackedFaces,
        tf2.faceId ≠ tf.faceId) ∧
    (2 ≤ tf.maskNumber →
      ∀ tf2 ∈ (processDetections st currentFaces now).1.trackedFaces,
        tf2.maskNumber ≠ tf.maskNumber) := by
  have hinv := reachable_tracksInv st hreach
  have hinvA := runMatching_tracksInv st (convertDetections currentFaces) now hinv
  have htfA : tf ∈ (runMatching st (convertDetections currentFaces) now).trackedFaces :=
    foldl_matchStep_unmatched_mem now _ _ tf htf hun
  rw [processDetections]
  cases he : currentFaces.isEmpty with
  | true =>
    constructor
    · intro tf2 h2
      simp at h2
    · intro _ tf2 h2
      simp at h2
  | false =>
    simp only [he, Bool.false_eq_true, if_false]
    have hid : ∀ tf2 ∈ ((runMatching st (convertDetections currentFaces)
        now).trackedFaces.map (markMissing (runMatching st (convertDetections currentFaces)
          now).matchedFaceIds)).filter
          (fun tf => !(shouldRemove (runMatching st (convertDetections currentFaces)
            now).matchedFaceIds now tf)), tf2.faceId ≠ tf.faceId := by
      intro tf2 h2 heq
      obtain ⟨h2mem, h2keep⟩ := List.mem_filter.mp h2
      obtain ⟨a, haA, rfl⟩ := List.mem_map.mp h2mem
      have haid : a.faceId = tf.faceId := by
        have : (markMissing (runMatching st (convertDetections currentFaces)
            now).matchedFaceIds a).faceId = a.faceId := by
          rw [markMissing]
          split <;> rfl
        rw [← this, heq]
      have haeq : a = tf :=
        mem_eq_of_pairwise_faceId _ hinvA.2.2.2 a tf haA htfA haid
      subst haeq
      have hcont : (runMatching st (convertDetections currentFaces)
          now).matchedFaceIds.contains a.faceId = false :=
        contains_eq_false_of_not_mem _ _ hun
      rw [markMissing] at h2keep
      rw [if_neg (fun hcc => hun (List.elem_iff.mp hcc))] at h2keep
      rw [shouldRemove] at h2keep
      simp only [hcont, Bool.not_false, Bool.true_and] at h2keep
      have : a.framesMissing + 1 > maxFramesMissing := by
        rw [maxFramesMissing] at hfm ⊢
        omega
      simp [this] at h2keep
    refine ⟨hid, ?_⟩
    intro hmask2 tf2 h2 heqm
    have honly0 : ∀ a ∈ st.trackedFaces, a.maskNumber = tf.maskNumber →
        a.faceId = tf.faceId := by
      intro a ha hm
      have hab : a = tf :=
        mem_eq_of_pairwise_mask st.trackedFaces hinv.2.1 a tf ha htf hm
          (by rw [hm]; omega)
      rw [hab]
    obtain ⟨hheld, honly⟩ := foldl_matchStep_mask_holder now
      (convertDetections currentFaces)
      { trackedFaces := st.trackedFaces, nextFaceId := st.nextFaceId,
        matchedFaceIds := [], results := [] } tf.faceId tf.maskNumber hmask2
      ⟨tf, htf, rfl, rfl⟩ honly0
    obtain ⟨h2mem, _⟩ := List.mem_filter.mp h2
    obtain ⟨a, haA, rfl⟩ := List.mem_map.mp h2mem
    have hamask : a.maskNumber = tf.maskNumber := by
      have : (markMissing (runMatching st (convertDetections currentFaces)
          now).matchedFaceIds a).maskNumber = a.maskNumber := by
        rw [markMissing]
        split <;> rfl
      rw [← this, heqm]
    have haid : a.faceId = tf.faceId := honly a haA hamask
    have : (markMissing (runMatching st (convertDetections currentFaces)
        now).matchedFaceIds a).faceId = a.faceId := by
      rw [markMissing]
      split <;> rfl
    exact hid _ h2 (this.trans haid)

/-! Characterization of `findBestMatch` (greedy maximum search). -/

theorem foldl_findBestMatchStep_spec (center : Point) (size : ℝ) (l : List TrackedFace)
    (acc : Option MatchResult × ℝ) (hnn : 0 ≤ acc.2)
    (hsc : ∀ m, acc.1 = some m → acc.2 = m.score) :
    0 ≤ (l.foldl (findBestMatchStep center size) acc).2 ∧
    (∀ m, (l.foldl (findBestMatchStep center size) acc).1 = some m →
      (l.foldl (findBestMatchStep center size) acc).2 = m.score ∧
      ((l.foldl (findBestMatchStep center size) acc).1 = acc.1 ∨
        (m.score > 0.6 ∧ m.faceId = m.trackedFace.faceId ∧
         m.score = calculateSimilarity center size m.trackedFace.center m.trackedFace.size ∧
         m.trackedFace ∈ l))) ∧
    (∀ tf ∈ l, calculateSimilarity center size tf.center tf.size ≤
      max (l.foldl (findBestMatchStep center size) acc).2 0.6) ∧
    acc.2 ≤ (l.foldl (findBestMatchStep center size) acc).2 := by
  induction l generalizing acc with
  | nil =>
    refine ⟨hnn, fun m hm => ⟨hsc m hm, Or.inl rfl⟩, by simp, le_refl _⟩
  | cons tf l ih =>
    rw [List.foldl_cons]
    by_cases hcond : calculateSimilarity center size tf.center tf.size > acc.2 ∧
        calculateSimilarity center size tf.center tf.size > 0.6
    · have hstep : findBestMatchStep center size acc tf =
          (some ⟨tf.faceId, tf, calculateSimilarity center size tf.center tf.size⟩,
            calculateSimilarity center size tf.center tf.size) := by
        rw [findBestMatchStep, if_pos hcond]
      rw [hstep]
      obtain ⟨i1, i2, i3, i4⟩ := ih
        (some ⟨tf.faceId, tf, calculateSimilarity center size tf.center tf.size⟩,
          calculateSimilarity center size tf.center tf.size)
        (le_of_lt (lt_trans (by norm_num) hcond.2))
        (fun m hm => by
          obtain rfl := Option.some_inj.mp hm
          rfl)
      refine ⟨i1, ?_, ?_, ?_⟩
      · intro m hm
        obtain ⟨s1, s2⟩ := i2 m hm
        refine ⟨s1, Or.inr ?_⟩
        rcases s2 with s2 | s2
        · rw [s2] at hm
          simp only [Option.some_inj] at hm
          rw [← hm]
          exact ⟨hcond.2, rfl, rfl, List.mem_cons_self tf l⟩
        · exact ⟨s2.1, s2.2.1, s2.2.2.1, List.mem_cons_of_mem tf s2.2.2.2⟩
      · intro tf2 htf2
        rcases List.mem_cons.mp htf2 with h | h
        · subst h
          exact le_max_of_le_left i4
        · exact i3 tf2 h
      · exact le_trans (le_of_lt hcond.1) i4
    · have hstep : findBestMatchStep center size acc tf = acc := by
        rw [findBestMatchStep, if_neg hcond]
      rw [hstep]
      obtain ⟨i1, i2, i3, i4⟩ := ih acc hnn hsc
      refine ⟨i1, ?_, ?_, i4⟩
      · intro m hm
        obtain ⟨s1, s2⟩ := i2 m hm
        refine ⟨s1, ?_⟩
        rcases s2 with s2 | s2
        · exact Or.inl s2
        · exact Or.inr ⟨s2.1, s2.2.1, s2.2.2.1, List.mem_cons_of_mem tf s2.2.2.2⟩
      · intro tf2 htf2
        rcases List.mem_cons.mp htf2 with h | h
        · subst h
          rcases not_and_or.mp hcond with h | h
          · exact le_max_of_le_left (le_trans (not_lt.mp h) i4)
          · exact le_max_of_le_right (not_lt.mp h)
        · exact i3 tf2 h

theorem findBestMatch_spec (center : Point) (size : ℝ) (tracked : List TrackedFace)
    (m : MatchResult) (h : findBestMatch center size tracked = some m) :
    m.score > 0.6 ∧ m.trackedFace ∈ tracked ∧ m.faceId = m.trackedFace.faceId ∧
    m.score = calculateSimilarity center size m.trackedFace.center m.trackedFace.size ∧
    ∀ tf ∈ tracked, calculateSimilarity center size tf.center tf.size ≤ m.score := by
  rw [findBestMatch] at h
  obtain ⟨i1, i2, i3, i4⟩ := foldl_findBestMatchStep_spec center size tracked (none, 0)
    (le_refl 0) (fun m hm => by cases hm)
  obtain ⟨s1, s2⟩ := i2 m h
  rcases s2 with s2 | s2
  · rw [h] at s2
    cases s2
  · refine ⟨s2.1, s2.2.2.2, s2.2.1, s2.2.2.1, ?_⟩
    intro tf htf
    have hb := i3 tf htf
    rw [s1] at hb
    rwa [max_eq_left (le_of_lt s2.1)] at hb

/-! Concrete-scenario evaluations. -/

theorem sim_far_le (x1 y1 x2 y2 : ℝ) (h : matchThreshold ≤ |x1 - x2|) :
    calculateSimilarity ⟨x1, y1⟩ 0.2 ⟨x2, y2⟩ 0.2 ≤ 0.6 := by
  refine le_trans (calculateSimilarity_le_of_far_x ⟨x1, y1⟩ ⟨x2, y2⟩ 0.2 0.2 h ?_) ?_
  · norm_num
  · norm_num

theorem mkDetection_faceA (i : ℕ) : mkDetection i faceA = detA i := by
  rw [faceA, mkDetection_mkLandmarks]
  rfl

theorem convertDetections_faceA : convertDetections [faceA] = [detA 0] := by
  rw [convertDetections]
  show ([mkDetection 0 faceA].filter (fun face => face.center.isSome)) = [detA 0]
  rw [mkDetection_faceA]
  rfl

theorem frame1_eval :
    processDetections freshRegistry [faceA] 0 =
      ({ trackedFaces := [trackA], nextFaceId := 2 }, [tagFace (detA 0) 1 1]) := by
  have hm : findBestMatch ⟨0.5, 0.5⟩ (detA 0).size ([] : List TrackedFace) = none := rfl
  have estep : matchStep 0
      { trackedFaces := [], nextFaceId := 1, matchedFaceIds := [], results := [] }
      (detA 0) =
      { trackedFaces := [newTrackedFace 1 1 (detA 0) ⟨0.5, 0.5⟩ 0], nextFaceId := 2,
        matchedFaceIds := [], results := [tagFace (detA 0) 1 1] } := by
    rw [matchStep_unmatched 0 _ (detA 0) ⟨0.5, 0.5⟩ rfl hm]
    rfl
  have efold : runMatching freshRegistry (convertDetections [faceA]) 0 =
      { trackedFaces := [newTrackedFace 1 1 (detA 0) ⟨0.5, 0.5⟩ 0], nextFaceId := 2,
        matchedFaceIds := [], results := [tagFace (detA 0) 1 1] } := by
    rw [convertDetections_faceA, runMatching]
    show List.foldl (matchStep 0)
      { trackedFaces := [], nextFaceId := 1, matchedFaceIds := [], results := [] }
      [detA 0] = _
    rw [List.foldl_cons, estep]
    rfl
  simp only [processDetections]
  rw [efold]
  rfl

theorem convertDetections_faceA2 :
    convertDetections [faceA, faceA] = [detA 0, detA 1] := by
  rw [convertDetections]
  show ([mkDetection 0 faceA, mkDetection 1 faceA].filter
    (fun face => face.center.isSome)) = [detA 0, detA 1]
  rw [mkDetection_faceA, mkDetection_faceA]
  rfl

theorem sim_A_A : calculateSimilarity ⟨0.5, 0.5⟩ 0.2 trackA.center trackA.size = 1 :=
  calculateSimilarity_self ⟨0.5, 0.5⟩ 0.2 (by norm_num)

theorem findBestMatch_A : findBestMatch ⟨0.5, 0.5⟩ (detA 0).size [trackA] = some matchA := by
  exact findBestMatch_singleton ⟨0.5, 0.5⟩ 0.2 trackA (by rw [sim_A_A]; norm_num)

theorem frame2_eval :
    processDetections { trackedFaces := [trackA], nextFaceId := 2 } [faceA, faceA] 0 =
      (regC3, [tagFace (detA 0) 1 1, tagFace (detA 1) 1 1]) := by
  have estep1 : matchStep 0
      { trackedFaces := [trackA], nextFaceId := 2, matchedFaceIds := [], results := [] }
      (detA 0) =
      { trackedFaces := [trackA0], nextFaceId := 2, matchedFaceIds := [1],
        results := [tagFace (detA 0) 1 1] } := by
    rw [matchStep_matched 0 _ (detA 0) ⟨0.5, 0.5⟩ matchA rfl findBestMatch_A]
    rfl
  have hsim0 : calculateSimilarity ⟨0.5, 0.5⟩ 0.2 trackA0.center trackA0.size = 1 :=
    calculateSimilarity_self ⟨0.5, 0.5⟩ 0.2 (by norm_num)
  have hm2 : findBestMatch ⟨0.5, 0.5⟩ (detA 1).size [trackA0] =
      some ⟨1, trackA0, calculateSimilarity ⟨0.5, 0.5⟩ 0.2 trackA0.center trackA0.size⟩ := by
    exact findBestMatch_singleton ⟨0.5, 0.5⟩ 0.2 trackA0 (by rw [hsim0]; norm_num)
  have estep2 : matchStep 0
      { trackedFaces := [trackA0], nextFaceId := 2, matchedFaceIds := [1],
        results := [tagFace (detA 0) 1 1] } (detA 1) =
      { trackedFaces := [trackA0], nextFaceId := 2, matchedFaceIds := [1, 1],
        results := [tagFace (detA 0) 1 1, tagFace (detA 1) 1 1] } := by
    rw [matchStep_matched 0 _ (detA 1) ⟨0.5, 0.5⟩
      ⟨1, trackA0, calculateSimilarity ⟨0.5, 0.5⟩ 0.2 trackA0.center trackA0.size⟩ rfl hm2]
    rfl
  have efold : runMatching { trackedFaces := [trackA], nextFaceId := 2 }
      (convertDetections [faceA, faceA]) 0 =
      { trackedFaces := [trackA0], nextFaceId := 2, matchedFaceIds := [1, 1],
        results := [tagFace (detA 0) 1 1, tagFace (detA 1) 1 1] } := by
    rw [convertDetections_faceA2, runMatching]
    show List.foldl (matchStep 0)
      { trackedFaces := [trackA], nextFaceId := 2, matchedFaceIds := [], results := [] }
      [detA 0, detA 1] = _
    rw [List.foldl_cons, estep1, List.foldl_cons, estep2]
    rfl
  simp only [processDetections]
  rw [efold]
  rfl

theorem nullframe_eval :
    processDetections regC3 [[]] 0 = ({ trackedFaces := [trackA], nextFaceId := 2 }, []) :=
  rfl

theorem mkDetection_faceF : mkDetection 1 faceF = detF := by
  rw [faceF, mkDetection_mkLandmarks]
  rfl

theorem convertDetections_faceAF :
    convertDetections [faceA, faceF] = [detA 0, detF] := by
  rw [convertDetections]
  show ([mkDetection 0 faceA, mkDetection 1 faceF].filter
    (fun face => face.center.isSome)) = [detA 0, detF]
  rw [mkDetection_faceA, mkDetection_faceF]
  rfl

theorem frameAF_eval :
    processDetections freshRegistry [faceA, faceF] 0 =
      (regAF, [tagFace (detA 0) 1 1, tagFace detF 2 2]) := by
  have estep1 : matchStep 0
      { trackedFaces := [], nextFaceId := 1, matchedFaceIds := [], results := [] }
      (detA 0) =
      { trackedFaces := [trackA0], nextFaceId := 2,
        matchedFaceIds := [], results := [tagFace (detA 0) 1 1] } := by
    have hm1 : findBestMatch ⟨0.5, 0.5⟩ (detA 0).size ([] : List TrackedFace) = none := rfl
    rw [matchStep_unmatched 0 _ (detA 0) ⟨0.5, 0.5⟩ rfl hm1]
    rfl
  have hm2 : findBestMatch ⟨0.9, 0.5⟩ (detF.size) [trackA0] = none := by
    refine findBestMatch_eq_none _ _ _ ?_
    intro tf htf
    rw [List.mem_singleton] at htf
    subst htf
    refine sim_far_le 0.9 0.5 0.5 0.5 ?_
    rw [matchThreshold, abs_of_nonneg (by norm_num : (0 : ℝ) ≤ 0.9 - 0.5)]
    norm_num
  have estep2 : matchStep 0
      { trackedFaces := [trackA0], nextFaceId := 2, matchedFaceIds := [],
        results := [tagFace (detA 0) 1 1] } detF =
      { trackedFaces := [trackA0, { trackF with framesMissing := 0 }], nextFaceId := 3,
        matchedFaceIds := [],
        results := [tagFace (detA 0) 1 1, tagFace detF 2 2] } := by
    rw [matchStep_unmatched 0 _ detF ⟨0.9, 0.5⟩ rfl hm2]
    rfl
  have efold : runMatching freshRegistry (convertDetections [faceA, faceF]) 0 =
      { trackedFaces := [trackA0, { trackF with framesMissing := 0 }], nextFaceId := 3,
        matchedFaceIds := [],
        results := [tagFace (detA 0) 1 1, tagFace detF 2 2] } := by
    rw [convertDetections_faceAF, runMatching]
    show List.foldl (matchStep 0)
      { trackedFaces := [], nextFaceId := 1, matchedFaceIds := [], results := [] }
      [detA 0, detF] = _
    rw [List.foldl_cons, estep1, List.foldl_cons, estep2]
    rfl
  simp only [processDetections]
  rw [efold]
  rfl

theorem sim_far_le2 (x1 y1 x2 y2 : ℝ) (h1 : x2 ≤ x1) (h2 : matchThreshold ≤ x1 - x2) :
    calculateSimilarity ⟨x1, y1⟩ 0.2 ⟨x2, y2⟩ 0.2 ≤ 0.6 := by
  refine sim_far_le x1 y1 x2 y2 ?_
  rw [abs_of_nonneg (by linarith)]
  exact h2

theorem convertDetections_sixFaces :
    convertDetections sixFaces =
      [sixDet 0 0, sixDet 1 0.2, sixDet 2 0.4, sixDet 3 0.6, sixDet 4 0.8,
       sixDet 5 1] := by
  rw [convertDetections]
  show ([mkDetection 0 (mkLandmarks ⟨0, 0.5⟩), mkDetection 1 (mkLandmarks ⟨0.2, 0.5⟩),
    mkDetection 2 (mkLandmarks ⟨0.4, 0.5⟩), mkDetection 3 (mkLandmarks ⟨0.6, 0.5⟩),
    mkDetection 4 (mkLandmarks ⟨0.8, 0.5⟩),
    mkDetection 5 (mkLandmarks ⟨1, 0.5⟩)].filter (fun face => face.center.isSome)) = _
  simp only [mkDetection_mkLandmarks]
  rfl

theorem sixFold_eval :
    runMatching freshRegistry (convertDetections sixFaces) 0 =
    { trackedFaces := [sixTrack 1 1 0, sixTrack 2 2 0.2, sixTrack 3 3 0.4,
        sixTrack 4 4 0.6, sixTrack 5 5 0.8, sixTrack 6 1 1], nextFaceId := 7,
      matchedFaceIds := [],
      results := [tagFace (sixDet 0 0) 1 1, tagFace (sixDet 1 0.2) 2 2,
        tagFace (sixDet 2 0.4) 3 3, tagFace (sixDet 3 0.6) 4 4,
        tagFace (sixDet 4 0.8) 5 5, tagFace (sixDet 5 1) 6 1] } := by
  have hm1 : findBestMatch ⟨0, 0.5⟩ ((sixDet 0 0).size) ([] : List TrackedFace) = none := rfl
  have estep1 : matchStep 0
      { trackedFaces := [], nextFaceId := 1, matchedFaceIds := [], results := [] }
      (sixDet 0 0) =
      { trackedFaces := [sixTrack 1 1 0], nextFaceId := 2, matchedFaceIds := [],
        results := [tagFace (sixDet 0 0) 1 1] } := by
    rw [matchStep_unmatched 0 _ (sixDet 0 0) ⟨0, 0.5⟩ rfl hm1]
    rfl
  have hm2 : findBestMatch ⟨0.2, 0.5⟩ ((sixDet 1 0.2).size) [sixTrack 1 1 0] = none := by
    refine findBestMatch_eq_none _ _ _ ?_
    intro tf htf
    simp only [List.mem_cons, List.not_mem_nil, or_false] at htf
    subst htf
    exact sim_far_le2 0.2 0.5 0 0.5 (by norm_num) (by rw [matchThreshold]; norm_num)
  have estep2 : matchStep 0
      { trackedFaces := [sixTrack 1 1 0], nextFaceId := 2, matchedFaceIds := [],
        results := [tagFace (sixDet 0 0) 1 1] } (sixDet 1 0.2) =
      { trackedFaces := [sixTrack 1 1 0, sixTrack 2 2 0.2], nextFaceId := 3,
        matchedFaceIds := [],
        results := [tagFace (sixDet 0 0) 1 1, tagFace (sixDet 1 0.2) 2 2] } := by
    rw [matchStep_unmatched 0 _ (sixDet 1 0.2) ⟨0.2, 0.5⟩ rfl hm2]
    rfl
  have hm3 : findBestMatch ⟨0.4, 0.5⟩ ((sixDet 2 0.4).size)
      [sixTrack 1 1 0, sixTrack 2 2 0.2] = none := by
    refine findBestMatch_eq_none _ _ _ ?_
    intro tf htf
    simp only [List.mem_cons, List.not_mem_nil, or_false] at htf
    rcases htf with rfl | rfl
    · exact sim_far_le2 0.4 0.5 0 0.5 (by norm_num) (by rw [matchThreshold]; norm_num)
    · exact sim_far_le2 0.4 0.5 0.2 0.5 (by norm_num) (by rw [matchThreshold]; norm_num)
  have estep3 : matchStep 0
      { trackedFaces := [sixTrack 1 1 0, sixTrack 2 2 0.2], nextFaceId := 3,
        matchedFaceIds := [],
        results := [tagFace (sixDet 0 0) 1 1, tagFace (sixDet 1 0.2) 2 2] }
      (sixDet 2 0.4) =
      { trackedFaces := [sixTrack 1 1 0, sixTrack 2 2 0.2, sixTrack 3 3 0.4],
        nextFaceId := 4, matchedFaceIds := [],
        results := [tagFace (sixDet 0 0) 1 1, tagFace (sixDet 1 0.2) 2 2,
          tagFace (sixDet 2 0.4) 3 3] } := by
    rw [matchStep_unmatched 0 _ (sixDet 2 0.4) ⟨0.4, 0.5⟩ rfl hm3]
    rfl
  have hm4 : findBestMatch ⟨0.6, 0.5⟩ ((sixDet 3 0.6).size)
      [sixTrack 1 1 0, sixTrack 2 2 0.2, sixTrack 3 3 0.4] = none := by
    refine findBestMatch_eq_none _ _ _ ?_
    intro tf htf
    simp only [List.mem_cons, List.not_mem_nil, or_false] at htf
    rcases htf with rfl | rfl | rfl
    · exact sim_far_le2 0.6 0.5 0 0.5 (by norm_num) (by rw [matchThreshold]; norm_num)
    · exact sim_far_le2 0.6 0.5 0.2 0.5 (by norm_num) (by rw [matchThreshold]; norm_num)
    · exact sim_far_le2 0.6 0.5 0.4 0.5 (by norm_num) (by rw [matchThreshold]; norm_num)
  have estep4 : matchStep 0
      { trackedFaces := [sixTrack 1 1 0, sixTrack 2 2 0.2, sixTrack 3 3 0.4],
        nextFaceId := 4, matchedFaceIds := [],
        results := [tagFace (sixDet 0 0) 1 1, tagFace (sixDet 1 0.2) 2 2,
          tagFace (sixDet 2 0.4) 3 3] } (sixDet 3 0.6) =
      { trackedFaces := [sixTrack 1 1 0, sixTrack 2 2 0.2, sixTrack 3 3 0.4,
          sixTrack 4 4 0.6], nextFaceId := 5, matchedFaceIds := [],
        results := [tagFace (sixDet 0 0) 1 1, tagFace (sixDet 1 0.2) 2 2,
          tagFace (sixDet 2 0.4) 3 3, tagFace (sixDet 3 0.6) 4 4] } := by
    rw [matchStep_unmatched 0 _ (sixDet 3 0.6) ⟨0.6, 0.5⟩ rfl hm4]
    rfl
  have hm5 : findBestMatch ⟨0.8, 0.5⟩ ((sixDet 4 0.8).size)
      [sixTrack 1 1 0, sixTrack 2 2 0.2, sixTrack 3 3 0.4, sixTrack 4 4 0.6] = none := by
    refine findBestMatch_eq_none _ _ _ ?_
    intro tf htf
    simp only [List.mem_cons, List.not_mem_nil, or_false] at htf
    rcases htf with rfl | rfl | rfl | rfl
    · exact sim_far_le2 0.8 0.5 0 0.5 (by norm_num) (by rw [matchThreshold]; norm_num)
    · exact sim_far_le2 0.8 0.5 0.2 0.5 (by norm_num) (by rw [matchThreshold]; norm_num)
    · exact sim_far_le2 0.8 0.5 0.4 0.5 (by norm_num) (by rw [matchThreshold]; norm_num)
    · exact sim_far_le2 0.8 0.5 0.6 0.5 (by norm_num) (by rw [matchThreshold]; norm_num)
  have estep5 : matchStep 0
      { trackedFaces := [sixTrack 1 1 0, sixTrack 2 2 0.2, sixTrack 3 3 0.4,
          sixTrack 4 4 0.6], nextFaceId := 5, matchedFaceIds := [],
        results := [tagFace (sixDet 0 0) 1 1, tagFace (sixDet 1 0.2) 2 2,
          tagFace (sixDet 2 0.4) 3 3, tagFace (sixDet 3 0.6) 4 4] } (sixDet 4 0.8) =
      { trackedFaces := [sixTrack 1 1 0, sixTrack 2 2 0.2, sixTrack 3 3 0.4,
          sixTrack 4 4 0.6, sixTrack 5 5 0.8], nextFaceId := 6, matchedFaceIds := [],
        results := [tagFace (sixDet 0 0) 1 1, tagFace (sixDet 1 0.2) 2 2,
          tagFace (sixDet 2 0.4) 3 3, tagFace (sixDet 3 0.6) 4 4,
          tagFace (sixDet 4 0.8) 5 5] } := by
    rw [matchStep_unmatched 0 _ (sixDet 4 0.8) ⟨0.8, 0.5⟩ rfl hm5]
    rfl
  have hm6 : findBestMatch ⟨1, 0.5⟩ ((sixDet 5 1).size)
      [sixTrack 1 1 0, sixTrack 2 2 0.2, sixTrack 3 3 0.4, sixTrack 4 4 0.6,
       sixTrack 5 5 0.8] = none := by
    refine findBestMatch_eq_none _ _ _ ?_
    intro tf htf
    simp only [List.mem_cons, List.not_mem_nil, or_false] at htf
    rcases htf with rfl | rfl | rfl | rfl | rfl
    · exact sim_far_le2 1 0.5 0 0.5 (by norm_num) (by rw [matchThreshold]; norm_num)
    · exact sim_far_le2 1 0.5 0.2 0.5 (by norm_num) (by rw [matchThreshold]; norm_num)
    · exact sim_far_le2 1 0.5 0.4 0.5 (by norm_num) (by rw [matchThreshold]; norm_num)
    · exact sim_far_le2 1 0.5 0.6 0.5 (by norm_num) (by rw [matchThreshold]; norm_num)
    · exact sim_far_le2 1 0.5 0.8 0.5 (by norm_num) (by rw [matchThreshold]; norm_num)
  have estep6 : matchStep 0
      { trackedFaces := [sixTrack 1 1 0, sixTrack 2 2 0.2, sixTrack 3 3 0.4,
          sixTrack 4 4 0.6, sixTrack 5 5 0.8], nextFaceId := 6, matchedFaceIds := [],
        results := [tagFace (sixDet 0 0) 1 1, tagFace (sixDet 1 0.2) 2 2,
          tagFace (sixDet 2 0.4) 3 3, tagFace (sixDet 3 0.6) 4 4,
          tagFace (sixDet 4 0.8) 5 5] } (sixDet 5 1) =
      { trackedFaces := [sixTrack 1 1 0, sixTrack 2 2 0.2, sixTrack 3 3 0.4,
          sixTrack 4 4 0.6, sixTrack 5 5 0.8, sixTrack 6 1 1], nextFaceId := 7,
        matchedFaceIds := [],
        results := [tagFace (sixDet 0 0) 1 1, tagFace (sixDet 1 0.2) 2 2,
          tagFace (sixDet 2 0.4) 3 3, tagFace (sixDet 3 0.6) 4 4,
          tagFace (sixDet 4 0.8) 5 5, tagFace (sixDet 5 1) 6 1] } := by
    rw [matchStep_unmatched 0 _ (sixDet 5 1) ⟨1, 0.5⟩ rfl hm6]
    rfl
  rw [convertDetections_sixFaces, runMatching]
  show List.foldl (matchStep 0)
    { trackedFaces := [], nextFaceId := 1, matchedFaceIds := [], results := [] }
    [sixDet 0 0, sixDet 1 0.2, sixDet 2 0.4, sixDet 3 0.6, sixDet 4 0.8,
     sixDet 5 1] = _
  rw [List.foldl_cons, estep1, List.foldl_cons, estep2, List.foldl_cons, estep3,
    List.foldl_cons, estep4, List.foldl_cons, estep5, List.foldl_cons, estep6]
  rfl

theorem six_state_eval :
    (processDetections freshRegistry sixFaces 0).1 =
      { trackedFaces := [sixTrackAged 1 1 0, sixTrackAged 2 2 0.2, sixTrackAged 3 3 0.4,
          sixTrackAged 4 4 0.6, sixTrackAged 5 5 0.8, sixTrackAged 6 1 1],
        nextFaceId := 7 } := by
  simp only [processDetections]
  rw [sixFold_eval]
  rfl

theorem six_eval :
    (processDetections freshRegistry sixFaces 0).1.trackedFaces.map
      (fun tf => tf.maskNumber) = [1, 2, 3, 4, 5, 1] ∧
    (processDetections freshRegistry sixFaces 0).1.trackedFaces.length = 6 := by
  rw [six_state_eval]
  exact ⟨rfl, rfl⟩

theorem sim_far_le3 (x1 y1 x2 y2 : ℝ) (h1 : x1 ≤ x2) (h2 : matchThreshold ≤ x2 - x1) :
    calculateSimilarity ⟨x1, y1⟩ 0.2 ⟨x2, y2⟩ 0.2 ≤ 0.6 := by
  refine sim_far_le x1 y1 x2 y2 ?_
  rw [abs_sub_comm, abs_of_nonneg (by linarith)]
  exact h2

theorem findBestMatchStep_skip (c : Point) (s : ℝ) (acc : Option MatchResult × ℝ)
    (tf : TrackedFace) (h : calculateSimilarity c s tf.center tf.size ≤ 0.6) :
    findBestMatchStep c s acc tf = acc := by
  rw [findBestMatchStep, if_neg]
  exact fun hh => absurd hh.2 (not_lt.mpr h)

theorem findBestMatchStep_take (c : Point) (s : ℝ) (acc : Option MatchResult × ℝ)
    (tf : TrackedFace) (h1 : acc.2 < calculateSimilarity c s tf.center tf.size)
    (h2 : 0.6 < calculateSimilarity c s tf.center tf.size) :
    findBestMatchStep c s acc tf =
      (some ⟨tf.faceId, tf, calculateSimilarity c s tf.center tf.size⟩,
        calculateSimilarity c s tf.center tf.size) := by
  rw [findBestMatchStep, if_pos ⟨h1, h2⟩]

theorem convertDetections_hitFaces :
    convertDetections hitFaces = [sixDet 0 0.2, sixDet 1 0.4, sixDet 2 1] := by
  rw [convertDetections]
  show ([mkDetection 0 (mkLandmarks ⟨0.2, 0.5⟩), mkDetection 1 (mkLandmarks ⟨0.4, 0.5⟩),
    mkDetection 2 (mkLandmarks ⟨1, 0.5⟩)].filter (fun face => face.center.isSome)) = _
  simp only [mkDetection_mkLandmarks]
  rfl

theorem hitFold_eval :
    runMatching st6 (convertDetections hitFaces) 0 =
    { trackedFaces := [sixTrackAged 1 1 0, sixTrack 2 2 0.2, sixTrack 3 3 0.4,
        sixTrackAged 4 4 0.6, sixTrackAged 5 5 0.8, sixTrack 6 1 1],
      nextFaceId := 7, matchedFaceIds := [2, 3, 6],
      results := [tagFace (sixDet 0 0.2) 2 2, tagFace (sixDet 1 0.4) 3 3,
        tagFace (sixDet 2 1) 6 1] } := by
  have ht1 : (0 : ℝ) < calculateSimilarity ⟨0.2, 0.5⟩ 0.2 ⟨0.2, 0.5⟩ 0.2 := by
    rw [calculateSimilarity_self ⟨0.2, 0.5⟩ 0.2 (by norm_num)]
    norm_num
  have ht2 : (0.6 : ℝ) < calculateSimilarity ⟨0.2, 0.5⟩ 0.2 ⟨0.2, 0.5⟩ 0.2 := by
    rw [calculateSimilarity_self ⟨0.2, 0.5⟩ 0.2 (by norm_num)]
    norm_num
  have hb1 : findBestMatch ⟨0.2, 0.5⟩ (sixDet 0 0.2).size
      [sixTrackAged 1 1 0, sixTrackAged 2 2 0.2, sixTrackAged 3 3 0.4,
       sixTrackAged 4 4 0.6, sixTrackAged 5 5 0.8, sixTrackAged 6 1 1] =
      some ⟨2, sixTrackAged 2 2 0.2,
        calculateSimilarity ⟨0.2, 0.5⟩ (sixDet 0 0.2).size
          (sixTrackAged 2 2 0.2).center (sixTrackAged 2 2 0.2).size⟩ := by
    rw [findBestMatch]
    rw [List.foldl_cons, findBestMatchStep_skip ⟨0.2, 0.5⟩ ((sixDet 0 0.2).size) _
      (sixTrackAged 1 1 0)
      (sim_far_le2 0.2 0.5 0 0.5 (by norm_num) (by norm_num [matchThreshold]))]
    rw [List.foldl_cons, findBestMatchStep_take ⟨0.2, 0.5⟩ ((sixDet 0 0.2).size)
      ((none, 0)) (sixTrackAged 2 2 0.2) ht1 ht2]
    rw [List.foldl_cons, findBestMatchStep_skip ⟨0.2, 0.5⟩ ((sixDet 0 0.2).size) _
      (sixTrackAged 3 3 0.4)
      (sim_far_le3 0.2 0.5 0.4 0.5 (by norm_num) (by norm_num [matchThreshold]))]
    rw [List.foldl_cons, findBestMatchStep_skip ⟨0.2, 0.5⟩ ((sixDet 0 0.2).size) _
      (sixTrackAged 4 4 0.6)
      (sim_far_le3 0.2 0.5 0.6 0.5 (by norm_num) (by norm_num [matchThreshold]))]
    rw [List.foldl_cons, findBestMatchStep_skip ⟨0.2, 0.5⟩ ((sixDet 0 0.2).size) _
      (sixTrackAged 5 5 0.8)
      (sim_far_le3 0.2 0.5 0.8 0.5 (by norm_num) (by norm_num [matchThreshold]))]
    rw [List.foldl_cons, findBestMatchStep_skip ⟨0.2, 0.5⟩ ((sixDet 0 0.2).size) _
      (sixTrackAged 6 1 1)
      (sim_far_le3 0.2 0.5 1 0.5 (by norm_num) (by norm_num [matchThreshold]))]
    rw [List.foldl_nil]
    rfl
  have hstep1 : matchStep 0
      { trackedFaces := [sixTrackAged 1 1 0, sixTrackAged 2 2 0.2, sixTrackAged 3 3 0.4,
          sixTrackAged 4 4 0.6, sixTrackAged 5 5 0.8, sixTrackAged 6 1 1],
        nextFaceId := 7, matchedFaceIds := [], results := [] } (sixDet 0 0.2) =
      { trackedFaces := [sixTrackAged 1 1 0, sixTrack 2 2 0.2, sixTrackAged 3 3 0.4,
          sixTrackAged 4 4 0.6, sixTrackAged 5 5 0.8, sixTrackAged 6 1 1],
        nextFaceId := 7, matchedFaceIds := [2],
        results := [tagFace (sixDet 0 0.2) 2 2] } := by
    rw [matchStep_matched 0 _ (sixDet 0 0.2) ⟨0.2, 0.5⟩ _ rfl hb1]
    rfl
  have hu1 : (0 : ℝ) < calculateSimilarity ⟨0.4, 0.5⟩ 0.2 ⟨0.4, 0.5⟩ 0.2 := by
    rw [calculateSimilarity_self ⟨0.4, 0.5⟩ 0.2 (by norm_num)]
    norm_num
  have hu2 : (0.6 : ℝ) < calculateSimilarity ⟨0.4, 0.5⟩ 0.2 ⟨0.4, 0.5⟩ 0.2 := by
    rw [calculateSimilarity_self ⟨0.4, 0.5⟩ 0.2 (by norm_num)]
    norm_num
  have hb2 : findBestMatch ⟨0.4, 0.5⟩ (sixDet 1 0.4).size
      [sixTrackAged 1 1 0, sixTrack 2 2 0.2, sixTrackAged 3 3 0.4,
       sixTrackAged 4 4 0.6, sixTrackAged 5 5 0.8, sixTrackAged 6 1 1] =
      some ⟨3, sixTrackAged 3 3 0.4,
        calculateSimilarity ⟨0.4, 0.5⟩ (sixDet 1 0.4).size
          (sixTrackAged 3 3 0.4).center (sixTrackAged 3 3 0.4).size⟩ := by
    rw [findBestMatch]
    rw [List.foldl_cons, findBestMatchStep_skip ⟨0.4, 0.5⟩ ((sixDet 1 0.4).size) _
      (sixTrackAged 1 1 0)
      (sim_far_le2 0.4 0.5 0 0.5 (by norm_num) (by norm_num [matchThreshold]))]
    rw [List.foldl_cons, findBestMatchStep_skip ⟨0.4, 0.5⟩ ((sixDet 1 0.4).size) _
      (sixTrack 2 2 0.2)
      (sim_far_le2 0.4 0.5 0.2 0.5 (by norm_num) (by norm_num [matchThreshold]))]
    rw [List.foldl_cons, findBestMatchStep_take ⟨0.4, 0.5⟩ ((sixDet 1 0.4).size)
      ((none, 0)) (sixTrackAged 3 3 0.4) hu1 hu2]
    rw [List.foldl_cons, findBestMatchStep_skip ⟨0.4, 0.5⟩ ((sixDet 1 0.4).size) _
      (sixTrackAged 4 4 0.6)
      (sim_far_le3 0.4 0.5 0.6 0.5 (by norm_num) (by norm_num [matchThreshold]))]
    rw [List.foldl_cons, findBestMatchStep_skip ⟨0.4, 0.5⟩ ((sixDet 1 0.4).size) _
      (sixTrackAged 5 5 0.8)
      (sim_far_le3 0.4 0.5 0.8 0.5 (by norm_num) (by norm_num [matchThreshold]))]
    rw [List.foldl_cons, findBestMatchStep_skip ⟨0.4, 0.5⟩ ((sixDet 1 0.4).size) _
      (sixTrackAged 6 1 1)
      (sim_far_le3 0.4 0.5 1 0.5 (by norm_num) (by norm_num [matchThreshold]))]
    rw [List.foldl_nil]
    rfl
  have hstep2 : matchStep 0
      { trackedFaces := [sixTrackAged 1 1 0, sixTrack 2 2 0.2, sixTrackAged 3 3 0.4,
          sixTrackAged 4 4 0.6, sixTrackAged 5 5 0.8, sixTrackAged 6 1 1],
        nextFaceId := 7, matchedFaceIds := [2],
        results := [tagFace (sixDet 0 0.2) 2 2] } (sixDet 1 0.4) =
      { trackedFaces := [sixTrackAged 1 1 0, sixTrack 2 2 0.2, sixTrack 3 3 0.4,
          sixTrackAged 4 4 0.6, sixTrackAged 5 5 0.8, sixTrackAged 6 1 1],
        nextFaceId := 7, matchedFaceIds := [2, 3],
        results := [tagFace (sixDet 0 0.2) 2 2, tagFace (sixDet 1 0.4) 3 3] } := by
    rw [matchStep_matched 0 _ (sixDet 1 0.4) ⟨0.4, 0.5⟩ _ rfl hb2]
    rfl
  have hv1 : (0 : ℝ) < calculateSimilarity ⟨1, 0.5⟩ 0.2 ⟨1, 0.5⟩ 0.2 := by
    rw [calculateSimilarity_self ⟨1, 0.5⟩ 0.2 (by norm_num)]
    norm_num
  have hv2 : (0.6 : ℝ) < calculateSimilarity ⟨1, 0.5⟩ 0.2 ⟨1, 0.5⟩ 0.2 := by
    rw [calculateSimilarity_self ⟨1, 0.5⟩ 0.2 (by norm_num)]
    norm_num
  have hb3 : findBestMatch ⟨1, 0.5⟩ (sixDet 2 1).size
      [sixTrackAged 1 1 0, sixTrack 2 2 0.2, sixTrack 3 3 0.4,
       sixTrackAged 4 4 0.6, sixTrackAged 5 5 0.8, sixTrackAged 6 1 1] =
      some ⟨6, sixTrackAged 6 1 1,
        calculateSimilarity ⟨1, 0.5⟩ (sixDet 2 1).size
          (sixTrackAged 6 1 1).center (sixTrackAged 6 1 1).size⟩ := by
    rw [findBestMatch]
    rw [List.foldl_cons, findBestMatchStep_skip ⟨1, 0.5⟩ ((sixDet 2 1).size) _
      (sixTrackAged 1 1 0)
      (sim_far_le2 1 0.5 0 0.5 (by norm_num) (by norm_num [matchThreshold]))]
    rw [List.foldl_cons, findBestMatchStep_skip ⟨1, 0.5⟩ ((sixDet 2 1).size) _
      (sixTrack 2 2 0.2)
      (sim_far_le2 1 0.5 0.2 0.5 (by norm_num) (by norm_num [matchThreshold]))]
    rw [List.foldl_cons, findBestMatchStep_skip ⟨1, 0.5⟩ ((sixDet 2 1).size) _
      (sixTrack 3 3 0.4)
      (sim_far_le2 1 0.5 0.4 0.5 (by norm_num) (by norm_num [matchThreshold]))]
    rw [List.foldl_cons, findBestMatchStep_skip ⟨1, 0.5⟩ ((sixDet 2 1).size) _
      (sixTrackAged 4 4 0.6)
      (sim_far_le2 1 0.5 0.6 0.5 (by norm_num) (by norm_num [matchThreshold]))]
    rw [List.foldl_cons, findBestMatchStep_skip ⟨1, 0.5⟩ ((sixDet 2 1).size) _
      (sixTrackAged 5 5 0.8)
      (sim_far_le2 1 0.5 0.8 0.5 (by norm_num) (by norm_num [matchThreshold]))]
    rw [List.foldl_cons, findBestMatchStep_take ⟨1, 0.5⟩ ((sixDet 2 1).size)
      ((none, 0)) (sixTrackAged 6 1 1) hv1 hv2]
    rw [List.foldl_nil]
    rfl
  have hstep3 : matchStep 0
      { trackedFaces := [sixTrackAged 1 1 0, sixTrack 2 2 0.2, sixTrack 3 3 0.4,
          sixTrackAged 4 4 0.6, sixTrackAged 5 5 0.8, sixTrackAged 6 1 1],
        nextFaceId := 7, matchedFaceIds := [2, 3],
        results := [tagFace (sixDet 0 0.2) 2 2, tagFace (sixDet 1 0.4) 3 3] }
        (sixDet 2 1) =
      { trackedFaces := [sixTrackAged 1 1 0, sixTrack 2 2 0.2, sixTrack 3 3 0.4,
          sixTrackAged 4 4 0.6, sixTrackAged 5 5 0.8, sixTrack 6 1 1],
        nextFaceId := 7, matchedFaceIds := [2, 3, 6],
        results := [tagFace (sixDet 0 0.2) 2 2, tagFace (sixDet 1 0.4) 3 3,
          tagFace (sixDet 2 1) 6 1] } := by
    rw [matchStep_matched 0 _ (sixDet 2 1) ⟨1, 0.5⟩ _ rfl hb3]
    rfl
  rw [convertDetections_hitFaces, runMatching]
  show List.foldl (matchStep 0)
    { trackedFaces := [sixTrackAged 1 1 0, sixTrackAged 2 2 0.2, sixTrackAged 3 3 0.4,
        sixTrackAged 4 4 0.6, sixTrackAged 5 5 0.8, sixTrackAged 6 1 1],
      nextFaceId := 7, matchedFaceIds := [], results := [] }
    [sixDet 0 0.2, sixDet 1 0.4, sixDet 2 1] = _
  rw [List.foldl_cons, hstep1, List.foldl_cons, hstep2, List.foldl_cons, hstep3]
  rfl

theorem hitFrame_state_eval :
    (processDetections st6 hitFaces 0).1 =
      { trackedFaces := [sixTrack 2 2 0.2, sixTrack 3 3 0.4, sixTrack 6 1 1],
        nextFaceId := 7 } := by
  simp only [processDetections]
  rw [hitFold_eval]
  rfl

/-! Smoothing-engine lemmas. -/

theorem smoothOne_prev (prev : List PrevFaceData) (g : DisplayGeom) (fd : TaggedFace)
    (c : Point) (p : PrevFaceData) (hc : fd.center = some c)
    (hp : prev.find? (fun d => d.faceId == fd.faceId) = some p) :
    smoothOne prev g fd = some
      { x := lerp p.x (projectFace g c fd.size fd.rotation).pixelX smoothingFactor
        y := lerp p.y (projectFace g c fd.size fd.rotation).pixelY smoothingFactor
        rotation := lerp p.rotation
          (projectFace g c fd.size fd.rotation).mirroredRotation smoothingFactor
        size := lerp p.size
          (projectFace g c fd.size fd.rotation).scaledMaskSize smoothingFactor
        maskNumber := fd.maskNumber
        faceId := fd.faceId } := by
  simp only [smoothOne, hc, hp]

theorem smoothOne_noprev (prev : List PrevFaceData) (g : DisplayGeom) (fd : TaggedFace)
    (c : Point) (hc : fd.center = some c)
    (hp : prev.find? (fun d => d.faceId == fd.faceId) = none) :
    smoothOne prev g fd = some
      { x := (projectFace g c fd.size fd.rotation).pixelX
        y := (projectFace g c fd.size fd.rotation).pixelY
        rotation := (projectFace g c fd.size fd.rotation).mirroredRotation
        size := (projectFace g c fd.size fd.rotation).scaledMaskSize
        maskNumber := fd.maskNumber
        faceId := fd.faceId } := by
  simp only [smoothOne, hc, hp]

theorem lerp_iterate_conv (s0 target : ℝ) (N : ℕ) :
    |(fun s => lerp s target smoothingFactor)^[N] s0 - target| =
      |s0 - target| * (1 - smoothingFactor) ^ N := by
  induction N with
  | zero => simp
  | succ n ih =>
    rw [Function.iterate_succ_apply']
    have hs : lerp ((fun s => lerp s target smoothingFactor)^[n] s0) target smoothingFactor
        - target =
        ((fun s => lerp s target smoothingFactor)^[n] s0 - target) * (1 - smoothingFactor) := by
      rw [lerp, smoothingFactor]
      ring
    rw [hs, abs_mul, ih,
      abs_of_nonneg (by rw [smoothingFactor]; norm_num : (0 : ℝ) ≤ 1 - smoothingFactor)]
    ring

/-! Extractor degradation lemmas. -/

theorem calculateFaceCenter_missing (lm : Landmarks)
    (h : lmGet lm 33 = none ∨ lmGet lm 133 = none ∨ lmGet lm 362 = none ∨
      lmGet lm 263 = none) :
    calculateFaceCenter lm = none := by
  rw [calculateFaceCenter]
  cases hE : lm.isEmpty with
  | true => simp
  | false =>
    simp only [hE, Bool.false_eq_true, if_false]
    cases h33 : lmGet lm 33 <;> cases h133 : lmGet lm 133 <;>
      cases h362 : lmGet lm 362 <;> cases h263 : lmGet lm 263 <;>
      simp_all

theorem calculateFaceSize_missing (lm : Landmarks)
    (h : lmGet lm 10 = none ∨ lmGet lm 152 = none ∨ lmGet lm 234 = none ∨
      lmGet lm 454 = none) :
    calculateFaceSize lm = 0.2 := by
  rw [calculateFaceSize]
  cases hE : lm.isEmpty with
  | true => simp
  | false =>
    simp only [hE, Bool.false_eq_true, if_false]
    cases h10 : lmGet lm 10 <;> cases h152 : lmGet lm 152 <;>
      cases h234 : lmGet lm 234 <;> cases h454 : lmGet lm 454 <;>
      simp_all

theorem calculateHeadRotation_missing (lm : Landmarks)
    (h : lmGet lm 33 = none ∨ lmGet lm 133 = none ∨ lmGet lm 362 = none ∨
      lmGet lm 263 = none) :
    calculateHeadRotation lm = 0 := by
  rw [calculateHeadRotation]
  cases hE : lm.isEmpty with
  | true => simp
  | false =>
    simp only [hE, Bool.false_eq_true, if_false]
    cases h33 : lmGet lm 33 <;> cases h133 : lmGet lm 133 <;>
      cases h362 : lmGet lm 362 <;> cases h263 : lmGet lm 263 <;>
      simp_all

theorem calculateFaceCenter_noNose (lm : Landmarks) (e33 e133 e362 e263 : Point)
    (h33 : lmGet lm 33 = some e33) (h133 : lmGet lm 133 = some e133)
    (h362 : lmGet lm 362 = some e362) (h263 : lmGet lm 263 = some e263)
    (h1 : lmGet lm 1 = none) :
    calculateFaceCenter lm = some
      ⟨((e33.x + e133.x) / 2 + (e362.x + e263.x) / 2) / 2,
       ((e33.y + e133.y) / 2 + (e362.y + e263.y) / 2) / 2 + 0.03 * 0.6⟩ := by
  have hne : lm.isEmpty = false := by
    cases lm with
    | nil => simp [lmGet] at h33
    | cons a l => rfl
  rw [calculateFaceCenter, hne]
  simp only [Bool.false_eq_true, if_false, h33, h133, h362, h263, h1]

theorem lmGet_mkLandmarksNoNose (c : Point) (i : ℕ) (h : i < 478) :
    lmGet (mkLandmarksNoNose c) i =
      if i = 33 ∨ i = 133 ∨ i = 263 ∨ i = 362 then some c else none := by
  simp [lmGet, mkLandmarksNoNose, List.getD, List.getElem?_map, List.getElem?_range, h]

/-- Claim C1, counterexample: six simultaneous far-apart detections on a
fresh registry leave six active tracks whose slot values are
`[1, 2, 3, 4, 5, 1]` — the slot multiset contains a duplicate, refuting
"the set of slot values across all active Tracks contains no duplicates". -/
theorem C1_counterexample :
    (processDetections freshRegistry sixFaces 0).1.trackedFaces.map
      (fun tf => tf.maskNumber) = [1, 2, 3, 4, 5, 1] ∧
    ¬ ((processDetections freshRegistry sixFaces 0).1.trackedFaces.map
      (fun tf => tf.maskNumber)).Nodup := by
  refine ⟨six_eval.1, ?_⟩
  rw [six_eval.1]
  decide

/-- Claim C1, amended: in every reachable registry state, every
active Track has a slot value in `[1, maxSlots]`, at most `maxSlots`
distinct slot values occur, and two distinct active Tracks can share a
slot value only at the overflow-fallback slot `1`. -/
theorem C1_slot_invariant (st : Registry) (h : Reachable st) :
    (∀ tf ∈ st.trackedFaces, 1 ≤ tf.maskNumber ∧ tf.maskNumber ≤ maxFaces) ∧
    (st.trackedFaces.map (fun tf => tf.maskNumber)).toFinset.card ≤ maxFaces ∧
    List.Pairwise (fun a b => a.maskNumber = b.maskNumber → a.maskNumber = 1)
      st.trackedFaces := by
  obtain ⟨h1, h2, _, _⟩ := reachable_tracksInv st h
  refine ⟨h1, ?_, h2⟩
  have hsub : (st.trackedFaces.map (fun tf => tf.maskNumber)).toFinset ⊆
      Finset.Icc 1 maxFaces := by
    intro x hx
    rw [List.mem_toFinset] at hx
    obtain ⟨tf, htf, rfl⟩ := List.mem_map.mp hx
    rw [Finset.mem_Icc]
    exact h1 tf htf
  calc (st.trackedFaces.map (fun tf => tf.maskNumber)).toFinset.card
      ≤ (Finset.Icc 1 maxFaces).card := Finset.card_le_card hsub
    _ = maxFaces := by
        rw [Nat.card_Icc]
        omega

/-- Witness for `C1_slot_invariant` at the reachable two-track state
`regAF`. -/
theorem C1_slot_invariant_witness :
    (∀ tf ∈ regAF.trackedFaces, 1 ≤ tf.maskNumber ∧ tf.maskNumber ≤ maxFaces) ∧
    (regAF.trackedFaces.map (fun tf => tf.maskNumber)).toFinset.card ≤ maxFaces ∧
    List.Pairwise (fun a b => a.maskNumber = b.maskNumber → a.maskNumber = 1)
      regAF.trackedFaces := by
  apply C1_slot_invariant
  have h := Reachable.step freshRegistry [faceA, faceF] 0 Reachable.fresh
  rw [frameAF_eval] at h
  exact h

/-- Claim C2, counterexample: six simultaneous far-apart detections on a
fresh registry leave six active tracks, exceeding `maxFaces = 5`. -/
theorem C2_counterexample :
    (processDetections freshRegistry sixFaces 0).1.trackedFaces.length = 6 ∧
    maxFaces < 6 :=
  ⟨six_eval.2, by norm_num [maxFaces]⟩

/-- Claim C2, amended: after each `processDetections` call the number of
active Tracks is bounded by the previous count plus the number of input
detections; no `maxSlots` bound is enforced. -/
theorem C2_count_bound (st : Registry) (currentFaces : List Landmarks) (now : ℤ) :
    (processDetections st currentFaces now).1.trackedFaces.length ≤
      st.trackedFaces.length + currentFaces.length :=
  processDetections_count_le st currentFaces now

/-- Claim C3, counterexample: `regC3` is reachable (two frames of `faceA`
from fresh), and a call whose single detection has a `none` centre (the
filtered detection set is empty while the raw input is non-empty) returns
an empty result but does NOT clear the registry. -/
theorem C3_counterexample :
    (processDetections (processDetections freshRegistry [faceA] 0).1
      [faceA, faceA] 0).1 = regC3 ∧
    calculateFaceCenter ([] : Landmarks) = none ∧
    (processDetections regC3 [[]] 0).2 = [] ∧
    (processDetections regC3 [[]] 0).1.trackedFaces ≠ [] := by
  refine ⟨?_, rfl, ?_, ?_⟩
  · rw [frame1_eval]
    show (processDetections { trackedFaces := [trackA], nextFaceId := 2 }
      [faceA, faceA] 0).1 = regC3
    rw [frame2_eval]
  · rw [nullframe_eval]
  · rw [nullframe_eval]
    simp

/-- Claim C3, amended: all Tracks are cleared immediately (and an empty
result returned) exactly when the RAW input detection list is empty; when
the input is non-empty but every centre extraction fails, the result list
is still empty but Tracks follow the normal expiry path instead of being
cleared. -/
theorem C3_clear_on_empty_input :
    (∀ (st : Registry) (now : ℤ),
      processDetections st [] now = ({ st with trackedFaces := [] }, [])) ∧
    (∀ (st : Registry) (currentFaces : List Landmarks) (now : ℤ),
      (∀ lm ∈ currentFaces, calculateFaceCenter lm = none) →
      (processDetections st currentFaces now).2 = []) :=
  ⟨processDetections_nil_input, processDetections_results_nil⟩

/-- Witness for `C3_clear_on_empty_input` at the concrete state `regC3`. -/
theorem C3_clear_on_empty_input_witness :
    processDetections regC3 [] 0 = ({ regC3 with trackedFaces := [] }, []) ∧
    (processDetections regC3 [[]] 0).2 = [] :=
  ⟨C3_clear_on_empty_input.1 regC3 0,
   C3_clear_on_empty_input.2 regC3 [[]] 0 (by
     intro lm hlm
     simp only [List.mem_singleton] at hlm
     rw [hlm]
     rfl)⟩

/-- Claim C4: a detection is matched to an existing Track only if that
similarity score of that Track strictly exceeds 0.6 (the score being
`calculateSimilarity`, i.e. `0.7·max(0, 1 − d/matchThreshold) +
0.3·max(0, 1 − |sizeA−sizeB|/max(sizeA,sizeB))` with Euclidean distance
`d`); the score of the chosen Track is maximal among all Tracks; and the
detection is emitted tagged with the id and slot of that Track after the Track
is updated with the new centre, size, rotation, landmarks,
`framesMissing = 0` and `lastSeen`. -/
theorem C4_matching (center : Point) (size : ℝ) (tracked : List TrackedFace)
    (m : MatchResult) (h : findBestMatch center size tracked = some m) :
    (0.6 < m.score ∧ m.trackedFace ∈ tracked ∧ m.faceId = m.trackedFace.faceId ∧
      m.score = calculateSimilarity center size m.trackedFace.center m.trackedFace.size ∧
      ∀ tf ∈ tracked, calculateSimilarity center size tf.center tf.size ≤ m.score) ∧
    (∀ (now : ℤ) (s : MatchLoopState) (d : Detection),
      d.center = some center → d.size = size → s.trackedFaces = tracked →
      (matchStep now s d).results =
        s.results ++ [tagFace d m.faceId m.trackedFace.maskNumber] ∧
      (matchStep now s d).trackedFaces =
        tracked.map (fun tf =>
          if tf.faceId = m.faceId then updateTrackedFace d center now tf else tf) ∧
      ∀ tf : TrackedFace, updateTrackedFace d center now tf =
        { tf with
          center := center, size := d.size, rotation := d.rotation,
          landmarks := d.landmarks, framesMissing := 0, lastSeen := now }) := by
  obtain ⟨q1, q2, q3, q4, q5⟩ := findBestMatch_spec center size tracked m h
  refine ⟨⟨q1, q2, q3, q4, q5⟩, ?_⟩
  intro now s d hc hsz htr
  have hm2 : findBestMatch center d.size s.trackedFaces = some m := by
    rw [hsz, htr]
    exact h
  rw [matchStep_matched now s d center m hc hm2]
  refine ⟨rfl, by rw [htr], fun tf => rfl⟩

/-- Witness for `C4_matching`: a detection at the centre of `trackA` matches
`trackA` with score 1. -/
theorem C4_matching_witness :
    findBestMatch ⟨0.5, 0.5⟩ ((detA 0).size) [trackA] = some matchA ∧
    0.6 < matchA.score ∧ matchA.trackedFace ∈ [trackA] ∧
    matchA.faceId = matchA.trackedFace.faceId ∧
    matchA.score = calculateSimilarity ⟨0.5, 0.5⟩ ((detA 0).size)
      matchA.trackedFace.center matchA.trackedFace.size := by
  have q := C4_matching ⟨0.5, 0.5⟩ ((detA 0).size) [trackA] matchA findBestMatch_A
  exact ⟨findBestMatch_A, q.1.1, q.1.2.1, q.1.2.2.1, q.1.2.2.2.1⟩

/-- Claim C5: an unmatched detection creates a new Track whose id is the
next counter value (the counter then increments) and whose slot is
`getNextMaskNumber`, which is the lowest unused value in `[1, maxFaces]`
(every smaller value being in use) or the fallback `1` when all slots are
used; the emitted entry carries the new id and slot. -/
theorem C5_new_track (now : ℤ) (s : MatchLoopState) (d : Detection) (c : Point)
    (hc : d.center = some c) (hm : findBestMatch c d.size s.trackedFaces = none) :
    (matchStep now s d).trackedFaces = s.trackedFaces ++
      [newTrackedFace s.nextFaceId (getNextMaskNumber s.trackedFaces) d c now] ∧
    (matchStep now s d).nextFaceId = s.nextFaceId + 1 ∧
    (matchStep now s d).results = s.results ++
      [tagFace d s.nextFaceId (getNextMaskNumber s.trackedFaces)] ∧
    (newTrackedFace s.nextFaceId (getNextMaskNumber s.trackedFaces) d c now).faceId =
      s.nextFaceId ∧
    (newTrackedFace s.nextFaceId (getNextMaskNumber s.trackedFaces) d c
      now).maskNumber = getNextMaskNumber s.trackedFaces ∧
    (1 ≤ getNextMaskNumber s.trackedFaces ∧
      getNextMaskNumber s.trackedFaces ≤ maxFaces) ∧
    ((∃ i, 1 ≤ i ∧ i ≤ maxFaces ∧
        i ∉ s.trackedFaces.map (fun face => face.maskNumber)) →
      getNextMaskNumber s.trackedFaces ∉
        s.trackedFaces.map (fun face => face.maskNumber) ∧
      ∀ j, 1 ≤ j → j < getNextMaskNumber s.trackedFaces →
        j ∈ s.trackedFaces.map (fun face => face.maskNumber)) ∧
    ((∀ i, 1 ≤ i → i ≤ maxFaces →
        i ∈ s.trackedFaces.map (fun face => face.maskNumber)) →
      getNextMaskNumber s.trackedFaces = 1) := by
  rw [matchStep_unmatched now s d c hc hm]
  exact ⟨rfl, rfl, rfl, rfl, rfl, getNextMaskNumber_mem_range s.trackedFaces,
    getNextMaskNumber_not_used s.trackedFaces, getNextMaskNumber_all_used s.trackedFaces⟩

/-- Witness for `C5_new_track`: the first detection on a fresh registry
creates Track 1 with slot 1. -/
theorem C5_new_track_witness :
    (matchStep 0
      { trackedFaces := [], nextFaceId := 1, matchedFaceIds := [], results := [] }
      (detA 0)).nextFaceId = 1 + 1 ∧
    (matchStep 0
      { trackedFaces := [], nextFaceId := 1, matchedFaceIds := [], results := [] }
      (detA 0)).results =
      [] ++ [tagFace (detA 0) 1 (getNextMaskNumber [])] ∧
    (1 ≤ getNextMaskNumber ([] : List TrackedFace) ∧
      getNextMaskNumber ([] : List TrackedFace) ≤ maxFaces) := by
  have q := C5_new_track 0
    { trackedFaces := [], nextFaceId := 1, matchedFaceIds := [], results := [] }
    (detA 0) ⟨0.5, 0.5⟩ rfl rfl
  exact ⟨q.2.1, q.2.2.1, q.2.2.2.2.2.1⟩

/-- Counterexample to claim C6: in the reachable overflow state `st6`
(masks 1, 2, 3, 4, 5, 1), the slot-1 track with id 1 misses the
`hitFaces` frame while its duplicate at slot 1 (id 6) is matched. The
expired track is removed, but its slot is NOT available afterwards: a
surviving track still wears mask 1, and the next allocation returns
slot 4, not slot 1. -/
theorem C6_counterexample :
    Reachable st6 ∧
    sixTrackAged 1 1 0 ∈ st6.trackedFaces ∧
    maxFramesMissing ≤ (sixTrackAged 1 1 0).framesMissing ∧
    (sixTrackAged 1 1 0).faceId ∉
      (runMatching st6 (convertDetections hitFaces) 0).matchedFaceIds ∧
    (processDetections st6 hitFaces 0).1.trackedFaces.map (fun tf => tf.faceId) =
      [2, 3, 6] ∧
    (processDetections st6 hitFaces 0).1.trackedFaces.map (fun tf => tf.maskNumber) =
      [2, 3, 1] ∧
    getNextMaskNumber (processDetections st6 hitFaces 0).1.trackedFaces = 4 := by
  refine ⟨?_, ?_, ?_, ?_, ?_, ?_, ?_⟩
  · have h := Reachable.step freshRegistry sixFaces 0 Reachable.fresh
    rw [six_state_eval] at h
    exact h
  · simp [st6]
  · exact le_refl 1
  · rw [hitFold_eval]
    show (1 : ℕ) ∉ ([2, 3, 6] : List ℕ)
    decide
  · rw [hitFrame_state_eval]
    rfl
  · rw [hitFrame_state_eval]
    rfl
  · rw [hitFrame_state_eval]
    rfl

/-- Claim C6, amended: in a reachable registry, a Track that is not matched
in a call and whose `framesMissing` counter already reached
`maxFramesMissing` is removed by the end of that call (its incremented
counter exceeds the bound); and for slots other than the overflow-fallback
slot 1, the slot of the removed Track is no longer held by any active Track
afterwards, so it is available for a subsequent allocation. The slot-1
restriction is necessary: an expired slot-1 track can leave its slot held
by a surviving duplicate, as `C6_counterexample` shows. -/
theorem C6_expiry (st : Registry) (currentFaces : List Landmarks) (now : ℤ)
    (tf : TrackedFace) (hreach : Reachable st) (htf : tf ∈ st.trackedFaces)
    (hun : tf.faceId ∉
      (runMatching st (convertDetections currentFaces) now).matchedFaceIds)
    (hfm : maxFramesMissing ≤ tf.framesMissing) :
    (∀ tf2 ∈ (processDetections st currentFaces now).1.trackedFaces,
      tf2.faceId ≠ tf.faceId) ∧
    (2 ≤ tf.maskNumber →
      ∀ tf2 ∈ (processDetections st currentFaces now).1.trackedFaces,
        tf2.maskNumber ≠ tf.maskNumber) :=
  processDetections_expires st currentFaces now tf hreach htf hun hfm

/-- Witness for `C6_expiry`: in the reachable six-track state `st6`, the
slot-5 track (id 5, one missed frame already) receives no match in the
non-empty `hitFaces` frame and expires through the per-frame removal path;
afterwards no active Track carries id 5, and since slot 5 is not the
overflow-fallback slot, no active Track holds slot 5 either. -/
theorem C6_expiry_witness :
    (∀ tf2 ∈ (processDetections st6 hitFaces 0).1.trackedFaces,
      tf2.faceId ≠ (sixTrackAged 5 5 0.8).faceId) ∧
    (2 ≤ (sixTrackAged 5 5 0.8).maskNumber →
      ∀ tf2 ∈ (processDetections st6 hitFaces 0).1.trackedFaces,
        tf2.maskNumber ≠ (sixTrackAged 5 5 0.8).maskNumber) := by
  have hreach : Reachable st6 := by
    have h := Reachable.step freshRegistry sixFaces 0 Reachable.fresh
    rw [six_state_eval] at h
    exact h
  refine C6_expiry st6 hitFaces 0 (sixTrackAged 5 5 0.8) hreach ?_ ?_ ?_
  · simp [st6]
  · rw [hitFold_eval]
    show (5 : ℕ) ∉ ([2, 3, 6] : List ℕ)
    decide
  · exact le_refl 1

/-- Claim C7: matching is greedy and non-exclusive — with one existing
Track and two detections both at its centre, a single `processDetections`
call returns two entries carrying the same id and the same slot. -/
theorem C7_nonexclusive_matching :
    (processDetections (processDetections freshRegistry [faceA] 0).1
      [faceA, faceA] 0).2.map (fun e => (e.faceId, e.maskNumber)) =
      [(1, 1), (1, 1)] := by
  rw [frame1_eval]
  show (processDetections { trackedFaces := [trackA], nextFaceId := 2 }
    [faceA, faceA] 0).2.map (fun e => (e.faceId, e.maskNumber)) = [(1, 1), (1, 1)]
  rw [frame2_eval]
  rfl

/-- Claim C8: per face, each of x, y, rotation, size is blended as
`next = lerp prev raw smoothingFactor` (`α = 0.2`) when a previous pose is
cached for the same identity, and the raw projected value is used
unsmoothed otherwise; and iterating the blend against a constant target
satisfies `|smoothed_N − target| = |smoothed_0 − target|·(1 − α)^N`
exactly. -/
theorem C8_smoothing :
    (∀ (prev : List PrevFaceData) (g : DisplayGeom) (fd : TaggedFace) (c : Point)
      (p : PrevFaceData), fd.center = some c →
      prev.find? (fun d => d.faceId == fd.faceId) = some p →
      smoothOne prev g fd = some
        { x := lerp p.x (projectFace g c fd.size fd.rotation).pixelX smoothingFactor
          y := lerp p.y (projectFace g c fd.size fd.rotation).pixelY smoothingFactor
          rotation := lerp p.rotation
            (projectFace g c fd.size fd.rotation).mirroredRotation smoothingFactor
          size := lerp p.size
            (projectFace g c fd.size fd.rotation).scaledMaskSize smoothingFactor
          maskNumber := fd.maskNumber
          faceId := fd.faceId }) ∧
    (∀ (prev : List PrevFaceData) (g : DisplayGeom) (fd : TaggedFace) (c : Point),
      fd.center = some c →
      prev.find? (fun d => d.faceId == fd.faceId) = none →
      smoothOne prev g fd = some
        { x := (projectFace g c fd.size fd.rotation).pixelX
          y := (projectFace g c fd.size fd.rotation).pixelY
          rotation := (projectFace g c fd.size fd.rotation).mirroredRotation
          size := (projectFace g c fd.size fd.rotation).scaledMaskSize
          maskNumber := fd.maskNumber
          faceId := fd.faceId }) ∧
    (∀ (s0 target : ℝ) (N : ℕ),
      |(fun s => lerp s target smoothingFactor)^[N] s0 - target| =
        |s0 - target| * (1 - smoothingFactor) ^ N) :=
  ⟨smoothOne_prev, smoothOne_noprev, lerp_iterate_conv⟩

/-- Witness for `C8_smoothing` at a concrete cached pose and geometry. -/
theorem C8_smoothing_witness :
    smoothOne [pdW] gW (tagFace (detA 0) 1 1) = some
      { x := lerp pdW.x (projectFace gW ⟨0.5, 0.5⟩ (tagFace (detA 0) 1 1).size
          (tagFace (detA 0) 1 1).rotation).pixelX smoothingFactor
        y := lerp pdW.y (projectFace gW ⟨0.5, 0.5⟩ (tagFace (detA 0) 1 1).size
          (tagFace (detA 0) 1 1).rotation).pixelY smoothingFactor
        rotation := lerp pdW.rotation (projectFace gW ⟨0.5, 0.5⟩
          (tagFace (detA 0) 1 1).size
          (tagFace (detA 0) 1 1).rotation).mirroredRotation smoothingFactor
        size := lerp pdW.size (projectFace gW ⟨0.5, 0.5⟩ (tagFace (detA 0) 1 1).size
          (tagFace (detA 0) 1 1).rotation).scaledMaskSize smoothingFactor
        maskNumber := (tagFace (detA 0) 1 1).maskNumber
        faceId := (tagFace (detA 0) 1 1).faceId } ∧
    |(fun s => lerp s 10 smoothingFactor)^[2] 3 - 10| =
      |3 - 10| * (1 - smoothingFactor) ^ 2 :=
  ⟨C8_smoothing.1 [pdW] gW (tagFace (detA 0) 1 1) ⟨0.5, 0.5⟩ pdW rfl rfl,
   C8_smoothing.2.2 3 10 2⟩

/-- Claim C9: the extractors never raise — missing required landmarks
degrade to a `none` centre, the fallback size `0.2`, and rotation `0`
(the embedding is total by construction, matching "no operation raises");
and every entry of a `processDetections` result list is well-formed in
that it carries a non-null centre. -/
theorem C9_no_raise :
    (∀ lm : Landmarks, (lmGet lm 33 = none ∨ lmGet lm 133 = none ∨
      lmGet lm 362 = none ∨ lmGet lm 263 = none) → calculateFaceCenter lm = none) ∧
    (∀ lm : Landmarks, (lmGet lm 10 = none ∨ lmGet lm 152 = none ∨
      lmGet lm 234 = none ∨ lmGet lm 454 = none) → calculateFaceSize lm = 0.2) ∧
    (∀ lm : Landmarks, (lmGet lm 33 = none ∨ lmGet lm 133 = none ∨
      lmGet lm 362 = none ∨ lmGet lm 263 = none) → calculateHeadRotation lm = 0) ∧
    (∀ (st : Registry) (currentFaces : List Landmarks) (now : ℤ),
      ∀ e ∈ (processDetections st currentFaces now).2, e.center.isSome = true) :=
  ⟨calculateFaceCenter_missing, calculateFaceSize_missing,
   calculateHeadRotation_missing, processDetections_results_center⟩

/-- Witness for `C9_no_raise` at a malformed one-point landmark array. -/
theorem C9_no_raise_witness :
    calculateFaceCenter lmBad = none ∧ calculateFaceSize lmBad = 0.2 ∧
    calculateHeadRotation lmBad = 0 :=
  ⟨C9_no_raise.1 lmBad (Or.inl rfl), C9_no_raise.2.1 lmBad (Or.inl rfl),
   C9_no_raise.2.2.1 lmBad (Or.inl rfl)⟩

/-- Claim C10: when the four eye-corner landmarks are present but the
nose-tip landmark (index 1) is absent, `calculateFaceCenter` still
returns a non-null centre, shifted down by the fixed fallback eye-to-nose
distance `0.03` (times 0.6). -/
theorem C10_nose_fallback (lm : Landmarks) (e33 e133 e362 e263 : Point)
    (h33 : lmGet lm 33 = some e33) (h133 : lmGet lm 133 = some e133)
    (h362 : lmGet lm 362 = some e362) (h263 : lmGet lm 263 = some e263)
    (h1 : lmGet lm 1 = none) :
    calculateFaceCenter lm = some
      ⟨((e33.x + e133.x) / 2 + (e362.x + e263.x) / 2) / 2,
       ((e33.y + e133.y) / 2 + (e362.y + e263.y) / 2) / 2 + 0.03 * 0.6⟩ ∧
    calculateFaceCenter lm ≠ none := by
  have h := calculateFaceCenter_noNose lm e33 e133 e362 e263 h33 h133 h362 h263 h1
  refine ⟨h, ?_⟩
  rw [h]
  simp

/-- Witness for `C10_nose_fallback` at a landmark array with all four eye
corners at `(0.5, 0.5)` and no nose tip. -/
theorem C10_nose_fallback_witness :
    calculateFaceCenter (mkLandmarksNoNose ⟨0.5, 0.5⟩) = some
      ⟨((0.5 + 0.5) / 2 + (0.5 + 0.5) / 2) / 2,
       ((0.5 + 0.5) / 2 + (0.5 + 0.5) / 2) / 2 + 0.03 * 0.6⟩ ∧
    calculateFaceCenter (mkLandmarksNoNose ⟨0.5, 0.5⟩) ≠ none := by
  refine C10_nose_fallback (mkLandmarksNoNose ⟨0.5, 0.5⟩) ⟨0.5, 0.5⟩ ⟨0.5, 0.5⟩
    ⟨0.5, 0.5⟩ ⟨0.5, 0.5⟩ ?_ ?_ ?_ ?_ ?_
  · rw [lmGet_mkLandmarksNoNose _ 33 (by norm_num)]
    norm_num
  · rw [lmGet_mkLandmarksNoNose _ 133 (by norm_num)]
    norm_num
  · rw [lmGet_mkLandmarksNoNose _ 362 (by norm_num)]
    norm_num
  · rw [lmGet_mkLandmarksNoNose _ 263 (by norm_num)]
    norm_num
  · rw [lmGet_mkLandmarksNoNose _ 1 (by norm_num)]
    norm_num

end FaceTracker
